import Mathlib

/-!
Verification development for the platform-engineering observability demo:
a shallow embedding of `metrics_generator.py`, `incident_response.py` and the
state-affecting parts of `mcp_server.py`, together with theorems settling the
spec claims about alert deduplication and expiry, the incident pipeline, the
bottleneck detector and the bounded metrics history.

Modelling conventions:
* Python floats are modelled as `ℚ` (the source only adds, multiplies,
  compares and rounds values; binary-float rounding noise is irrelevant to
  every property proved here and is noted where it could in principle differ).
* `datetime` values are modelled as `ℚ` seconds; comparisons between ISO
  timestamps in the source are order-isomorphic to comparisons of the
  underlying times.
* Randomness is modelled by explicit oracles: each `random.random() > c`
  gate becomes a `Bool` outcome, each `random.uniform(a, b)` becomes a `ℚ`
  draw constrained to `[a, b]` by a validity predicate, and each
  `random.choice` / `random.randint` becomes a `ℕ` roll reduced modulo the
  number of outcomes.
* The mutable module-level globals (`ACTIVE_ALERTS`, `metrics_history`) are
  threaded explicitly as state.
-/

/-- Python `round(q, ndigits)`: banker's rounding (round-half-to-even) of
`q` at `ndigits` decimal digits, computed exactly over `ℚ`. -/
def pyRound (q : ℚ) (ndigits : ℕ) : ℚ :=
  let m : ℚ := (10 : ℚ) ^ ndigits
  let s := q * m
  let f : ℤ := ⌊s⌋
  let r := s - (f : ℚ)
  let n : ℤ :=
    if r > 1/2 then f + 1
    else if r < 1/2 then f
    else if f % 2 = 0 then f else f + 1
  (n : ℚ) / m

/-- Python truncation `int(q)` for nonnegative `q` (floor). -/
def pyInt (q : ℚ) : ℕ := (⌊q⌋).toNat

/-- Python `str(x)` for an optional string field: `None` prints as `"None"`. -/
def pyOptStr (o : Option String) : String :=
  match o with
  | none => "None"
  | some s => s

/-- Membership of a character in a list, used by the strip helpers. -/
def charIn (cs : List Char) (c : Char) : Bool := cs.contains c

/-- Python `s.strip(chars)`: drop characters of `cs` from both ends. -/
def pyStripChars (s : String) (cs : List Char) : String :=
  String.mk (((s.toList.dropWhile (charIn cs)).reverse.dropWhile (charIn cs)).reverse)

/-- Python `s.strip()`: drop whitespace from both ends. -/
def pyStrip (s : String) : String :=
  String.mk (((s.toList.dropWhile Char.isWhitespace).reverse.dropWhile Char.isWhitespace).reverse)

/-- Python `s.lower()` (ASCII case folding suffices for the pod names used). -/
def pyLower (s : String) : String := String.mk (s.toList.map Char.toLower)

/-- Substring test on character lists. -/
def listContainsSub (ss pat : List Char) : Bool :=
  (List.range (ss.length + 1)).any (fun i => pat.isPrefixOf (ss.drop i))

/-- Python `pat in s` substring containment. -/
def strContains (s pat : String) : Bool := listContainsSub s.toList pat.toList

/-! Fixed catalogs from the top of `metrics_generator.py`. -/

/-- Simulated pod names (`POD_NAMES`). -/
def POD_NAMES : List String :=
  ["api-gateway-7d9f8b-xyz12",
   "auth-service-5c8a4f-abc34",
   "payment-service-9b2e1d-def56",
   "notification-service-4a7c3e-ghi78",
   "user-service-6f1b9a-jkl90",
   "inventory-service-3d8e2c-mno12",
   "frontend-app-8c4f7b-pqr34"]

/-- Simulated namespaces (`NAMESPACES`). -/
def NAMESPACES : List String := ["production", "staging", "dev"]

/-- Simulated API endpoints (`API_ENDPOINTS`). -/
def API_ENDPOINTS : List String :=
  ["/api/v1/users",
   "/api/v1/products",
   "/api/v1/orders",
   "/api/v1/auth/login",
   "/api/v1/payments",
   "/api/v1/inventory",
   "/api/v1/notifications"]

/-- An entry of the `ACTIVE_ALERTS` store (the alert dicts built by the
generators in `metrics_generator.py`). -/
structure Alert where
  id : String
  type : String
  severity : String
  resource : String
  message : String
  timestamp : ℚ
  status : String
deriving DecidableEq

/-- The insert-if-absent step shared by `get_k8s_metrics` and
`get_api_gateway_metrics`: look up an existing active alert with the same
`resource` (Python `next((a for a in ACTIVE_ALERTS if a["resource"] == r),
None)`) and append only when none is found. -/
def recordAlert (store : List Alert) (a : Alert) : List Alert :=
  match store.find? (fun b => b.resource == a.resource) with
  | some _ => store
  | none => store ++ [a]

/-! K8s metrics generator. -/

/-- Weighted status list of `_generate_pod_status`. -/
def POD_STATUSES : List String :=
  ["Running", "Running", "Running", "Running", "Pending", "CrashLoopBackOff"]

/-- Source `_generate_pod_status`: `random.choice(statuses)`; the oracle
supplies the roll, reduced modulo the list length. -/
def _generate_pod_status (roll : ℕ) : String :=
  POD_STATUSES.getD (roll % POD_STATUSES.length) "Running"

/-- Source `_generate_cpu_usage`: `base = uniform(20, 60)`,
`spike = uniform(0, 40) if random.random() > 0.8 else 0`,
result `min(100, base + spike)`. The oracle supplies `base`, the spike gate
outcome and the spike draw. -/
def _generate_cpu_usage (base : ℚ) (spikeGate : Bool) (spikeDraw : ℚ) : ℚ :=
  let spike := if spikeGate then spikeDraw else 0
  min 100 (base + spike)

/-- Source `_generate_memory_usage`: `random.uniform(30, 85)`; the oracle
supplies the draw, constrained to `[30, 85]` by the validity predicates. -/
def _generate_memory_usage (draw : ℚ) : ℚ := draw

/-- Randomness consumed for one pod in the `get_k8s_metrics` loop. -/
structure PodDraw where
  statusRoll : ℕ
  cpuBase : ℚ
  spikeGate : Bool
  spikeDraw : ℚ
  memDraw : ℚ
  restartRoll : ℕ
  ageRoll : ℕ
  alertId : String
deriving DecidableEq

/-- Ranges guaranteed by the `random.uniform` calls feeding a `PodDraw`. -/
def PodDraw.Valid (d : PodDraw) : Prop :=
  20 ≤ d.cpuBase ∧ d.cpuBase ≤ 60 ∧ 0 ≤ d.spikeDraw ∧ d.spikeDraw ≤ 40 ∧
    30 ≤ d.memDraw ∧ d.memDraw ≤ 85

/-- A pod record of the `pods` list returned by `get_k8s_metrics`. -/
structure PodInfo where
  name : String
  ns : String
  status : String
  cpu_usage_percent : ℚ
  memory_usage_percent : ℚ
  restart_count : ℕ
  age : String
deriving DecidableEq

/-- A node record of the `nodes` list returned by `get_k8s_metrics`. -/
structure NodeInfo where
  name : String
  status : String
  cpu_capacity : String
  memory_capacity : String
  cpu_usage : ℚ
  memory_usage : ℚ
deriving DecidableEq

/-- The `cluster` summary of `get_k8s_metrics`. -/
structure ClusterSummary where
  total_pods : ℕ
  running_pods : ℕ
  pending_pods : ℕ
  failed_pods : ℕ
  avg_cpu_usage : ℚ
  avg_memory_usage : ℚ
  health_score : ℚ
deriving DecidableEq

/-- The full return value of `get_k8s_metrics`. -/
structure K8sMetrics where
  cluster : ClusterSummary
  nodes : List NodeInfo
  pods : List PodInfo
  timestamp : ℚ
deriving DecidableEq

/-- Randomness consumed by one `get_k8s_metrics` call: one `PodDraw` per
pod index, the node gauge draws, and the wall-clock time of the call. -/
structure K8sOracle where
  draws : ℕ → PodDraw
  node1cpu : ℚ
  node1mem : ℚ
  node2cpu : ℚ
  node2mem : ℚ
  now : ℚ

/-- Validity of a `K8sOracle`: every per-pod draw is in range. -/
def K8sOracle.Valid (o : K8sOracle) : Prop := ∀ i, (o.draws i).Valid

/-- Accumulator of the per-pod loop of `get_k8s_metrics`. -/
structure K8sAcc where
  alerts : List Alert
  pods : List PodInfo
  total_cpu : ℚ
  total_memory : ℚ

/-- The alert dict built for a problematic pod inside the `get_k8s_metrics`
loop (source lines 92-103): `CrashLoop`/`critical` for a crash-looping
pod, `HighResourceUsage`/`warning` otherwise. -/
def k8sPodAlert (now : ℚ) (pod_name : String) (d : PodDraw) : Alert :=
  let status := _generate_pod_status d.statusRoll
  let alert_type := if status = "CrashLoopBackOff" then "CrashLoop" else "HighResourceUsage"
  { id := d.alertId, type := alert_type,
    severity := if status = "CrashLoopBackOff" then "critical" else "warning",
    resource := pod_name,
    message := alert_type ++ " detected on " ++ pod_name,
    timestamp := now, status := "firing" }

/-- The pod dict built inside the `get_k8s_metrics` loop (source lines
75-83). When the namespace filter is `"all"` the pod is assigned the
namespace `NAMESPACES[idx % 3]`; the stored usages are rounded to two
decimals; `restart_count` is `randint(0, 3)` only for a crash-looping
pod. -/
def k8sPodRecord (ns : String) (idx : ℕ) (pod_name : String) (d : PodDraw) : PodInfo :=
  let status := _generate_pod_status d.statusRoll
  { name := pod_name,
    ns := if ns = "all" then NAMESPACES.getD (idx % NAMESPACES.length) ns else ns,
    status := status,
    cpu_usage_percent := pyRound (_generate_cpu_usage d.cpuBase d.spikeGate d.spikeDraw) 2,
    memory_usage_percent := pyRound (_generate_memory_usage d.memDraw) 2,
    restart_count := if status = "CrashLoopBackOff" then d.restartRoll % 4 else 0,
    age := toString (1 + d.ageRoll % 30) ++ "d" }

/-- One iteration of the `for idx, pod_name in enumerate(POD_NAMES)` loop of
`get_k8s_metrics` (source lines 65-103): build the pod record, accumulate
running-pod totals, and raise an alert for problematic pods via the
insert-if-absent pattern. Each field of the accumulator is updated in one
record so that the per-field effects are the source's. -/
def k8sPodStep (ns : String) (now : ℚ) (acc : K8sAcc) (idx : ℕ) (pod_name : String)
    (d : PodDraw) : K8sAcc :=
  let status := _generate_pod_status d.statusRoll
  let cpu := _generate_cpu_usage d.cpuBase d.spikeGate d.spikeDraw
  let memory := _generate_memory_usage d.memDraw
  { alerts :=
      if status = "CrashLoopBackOff" ∨ cpu > 90 ∨ memory > 90 then
        recordAlert acc.alerts (k8sPodAlert now pod_name d)
      else acc.alerts,
    pods := acc.pods ++ [k8sPodRecord ns idx pod_name d],
    total_cpu := if status = "Running" then acc.total_cpu + cpu else acc.total_cpu,
    total_memory := if status = "Running" then acc.total_memory + memory else acc.total_memory }

/-- Source `get_k8s_metrics`: generates the pod list (raising alerts as a
side effect on the store) and assembles the cluster summary and node
gauges. Returns the metrics record together with the updated
`ACTIVE_ALERTS` store. -/
def get_k8s_metrics (ns : String) (o : K8sOracle) (store : List Alert) :
    K8sMetrics × List Alert :=
  let acc := POD_NAMES.enum.foldl
    (fun acc p => k8sPodStep ns o.now acc p.1 p.2 (o.draws p.1))
    { alerts := store, pods := [], total_cpu := 0, total_memory := 0 }
  let num_running := (acc.pods.filter (fun p => p.status = "Running")).length
  let cluster : ClusterSummary :=
    { total_pods := acc.pods.length,
      running_pods := num_running,
      pending_pods := (acc.pods.filter (fun p => p.status = "Pending")).length,
      failed_pods := (acc.pods.filter (fun p => p.status = "CrashLoopBackOff")).length,
      avg_cpu_usage := pyRound (acc.total_cpu / (max num_running 1 : ℕ)) 2,
      avg_memory_usage := pyRound (acc.total_memory / (max num_running 1 : ℕ)) 2,
      health_score := pyRound (((num_running : ℚ) / (acc.pods.length : ℚ)) * 100) 2 }
  let node1 : NodeInfo :=
    { name := "node-1", status := "Ready", cpu_capacity := "8 cores",
      memory_capacity := "32Gi", cpu_usage := pyRound o.node1cpu 2,
      memory_usage := pyRound o.node1mem 2 }
  let node2 : NodeInfo :=
    { name := "node-2", status := "Ready", cpu_capacity := "8 cores",
      memory_capacity := "32Gi", cpu_usage := pyRound o.node2cpu 2,
      memory_usage := pyRound o.node2mem 2 }
  ({ cluster := cluster, nodes := [node1, node2], pods := acc.pods,
     timestamp := o.now }, acc.alerts)

/-! API gateway metrics generator. -/

/-- An endpoint record of `get_api_gateway_metrics`. The `status_codes`
histogram is kept as four counts; Python computes them with binary-float
products (`int(errors * 0.2)` etc.), modelled here by exact rational
truncation, which can differ by one near exact multiples — no claim touches
these fields. -/
structure EndpointData where
  path : String
  requests : ℕ
  success_rate : ℚ
  error_rate : ℚ
  latency_p50_ms : ℚ
  latency_p95_ms : ℚ
  latency_p99_ms : ℚ
  throughput_rps : ℚ
  code200 : ℕ
  code400 : ℕ
  code500 : ℕ
  code503 : ℕ
deriving DecidableEq

/-- The `summary` block of `get_api_gateway_metrics`. -/
structure GatewaySummary where
  total_requests : ℕ
  total_errors : ℕ
  overall_success_rate : ℚ
  avg_latency_ms : ℚ
  time_window : String
deriving DecidableEq

/-- The full return value of `get_api_gateway_metrics`. -/
structure GatewayMetrics where
  summary : GatewaySummary
  endpoints : List EndpointData
  timestamp : ℚ
deriving DecidableEq

/-- Randomness consumed for one endpoint in the `get_api_gateway_metrics`
loop: `requests = randint(100, 5000)` (a roll reduced mod 4901),
`error_rate = uniform(0.1, 5.0)`, the bottleneck gate `random.random() >
0.85`, the p50 draw (range depends on the gate), and the p95/p99 factors. -/
structure EndpointDraw where
  requestsRoll : ℕ
  errorRate : ℚ
  bottleneckGate : Bool
  p50Draw : ℚ
  p95Factor : ℚ
  p99Factor : ℚ
  alertId : String
deriving DecidableEq

/-- Ranges guaranteed by the random calls feeding an `EndpointDraw`. -/
def EndpointDraw.Valid (d : EndpointDraw) : Prop :=
  1/10 ≤ d.errorRate ∧ d.errorRate ≤ 5 ∧
    (if d.bottleneckGate then 800 ≤ d.p50Draw ∧ d.p50Draw ≤ 2000
     else 50 ≤ d.p50Draw ∧ d.p50Draw ≤ 200) ∧
    2 ≤ d.p95Factor ∧ d.p95Factor ≤ 4 ∧ 3/2 ≤ d.p99Factor ∧ d.p99Factor ≤ 3

/-- Accumulator of the per-endpoint loop of `get_api_gateway_metrics`. -/
structure GatewayAcc where
  alerts : List Alert
  endpoints : List EndpointData
  total_requests : ℕ
  total_errors : ℕ

/-- One iteration of the `for endpoint in API_ENDPOINTS` loop of
`get_api_gateway_metrics` (source lines 146-195): build the endpoint
record, accumulate totals, and raise a `HighLatency` / `HighErrorRate`
alert via the insert-if-absent pattern. -/
def gatewayEndpointStep (now : ℚ) (acc : GatewayAcc) (endpoint : String)
    (d : EndpointDraw) : GatewayAcc :=
  let requests := 100 + d.requestsRoll % 4901
  let error_rate := d.errorRate
  let errors := pyInt ((requests : ℚ) * error_rate / 100)
  let p50_latency := d.p50Draw
  let p95_latency := p50_latency * d.p95Factor
  let p99_latency := p95_latency * d.p99Factor
  let endpoint_data : EndpointData :=
    { path := endpoint, requests := requests,
      success_rate := pyRound (100 - error_rate) 2,
      error_rate := pyRound error_rate 2,
      latency_p50_ms := pyRound p50_latency 2,
      latency_p95_ms := pyRound p95_latency 2,
      latency_p99_ms := pyRound p99_latency 2,
      throughput_rps := pyRound ((requests : ℚ) / 300) 2,
      code200 := requests - errors - pyInt ((errors : ℚ) * (2/10)),
      code400 := pyInt ((errors : ℚ) * (3/10)),
      code500 := pyInt ((errors : ℚ) * (5/10)),
      code503 := pyInt ((errors : ℚ) * (2/10)) }
  let alert_type := if p95_latency > 1000 then "HighLatency" else "HighErrorRate"
  let msg :=
    if alert_type = "HighLatency" then
      alert_type ++ " on " ++ endpoint ++ ": " ++ toString (pyRound p95_latency 0) ++ "ms p95"
    else
      "Error rate " ++ toString (pyRound error_rate 2) ++ "%"
  let newAlert : Alert :=
    { id := d.alertId, type := alert_type, severity := "warning",
      resource := endpoint, message := msg, timestamp := now, status := "firing" }
  { alerts :=
      if p95_latency > 1000 ∨ error_rate > 3 then recordAlert acc.alerts newAlert
      else acc.alerts,
    endpoints := acc.endpoints ++ [endpoint_data],
    total_requests := acc.total_requests + requests,
    total_errors := acc.total_errors + errors }

/-- Randomness consumed by one `get_api_gateway_metrics` call. -/
structure GatewayOracle where
  draws : ℕ → EndpointDraw
  now : ℚ

/-- Validity of a `GatewayOracle`: every per-endpoint draw is in range. -/
def GatewayOracle.Valid (o : GatewayOracle) : Prop := ∀ i, (o.draws i).Valid

/-- Source `get_api_gateway_metrics`: generates the endpoint list (raising
alerts as a side effect on the store) and assembles the summary. Returns
the metrics record together with the updated `ACTIVE_ALERTS` store. -/
def get_api_gateway_metrics (time_window : String) (o : GatewayOracle)
    (store : List Alert) : GatewayMetrics × List Alert :=
  let acc := API_ENDPOINTS.enum.foldl
    (fun acc p => gatewayEndpointStep o.now acc p.2 (o.draws p.1))
    { alerts := store, endpoints := [], total_requests := 0, total_errors := 0 }
  let summary : GatewaySummary :=
    { total_requests := acc.total_requests,
      total_errors := acc.total_errors,
      overall_success_rate :=
        pyRound ((((acc.total_requests : ℚ) - acc.total_errors) / acc.total_requests) * 100) 2,
      avg_latency_ms :=
        pyRound ((acc.endpoints.map (fun e => e.latency_p50_ms)).sum / acc.endpoints.length) 2,
      time_window := time_window }
  ({ summary := summary, endpoints := acc.endpoints, timestamp := o.now }, acc.alerts)

/-! Cluster log generator. -/

/-- One entry of the generated log list. -/
structure LogEntry where
  timestamp : ℚ
  severity : String
  pod : String
  message : String
deriving DecidableEq

/-- The return value of `get_cluster_logs`. -/
structure LogsResult where
  pod : String
  total_lines : ℕ
  error_count : ℕ
  warning_count : ℕ
  anomaly_detected : Bool
  anomaly_description : Option String
  logs : List LogEntry
deriving DecidableEq

/-- The three severities drawn for benign lines. -/
def LOG_SEVERITIES : List String := ["INFO", "WARN", "ERROR"]

/-- Error-message catalog of `get_cluster_logs`. -/
def ERROR_MESSAGES : List String :=
  ["Connection refused to database",
   "OutOfMemoryError: Java heap space",
   "Timeout waiting for response",
   "Failed to authenticate request",
   "Null pointer exception in handler"]

/-- Benign-message catalog of `get_cluster_logs`. -/
def OK_MESSAGES : List String :=
  ["Request processed successfully",
   "Cache hit for user data",
   "Database query executed in 45ms",
   "Health check passed",
   "Metrics exported to Prometheus"]

/-- Randomness consumed for one generated log line: the `random.random() >
0.6` error-branch gate, the benign severity choice, the message choices and
the pod choice used when `pod_name == "all"`. -/
structure LogLineDraw where
  errGate : Bool
  sevRoll : ℕ
  errMsgRoll : ℕ
  okMsgRoll : ℕ
  podRoll : ℕ
deriving DecidableEq

/-- Randomness consumed by one `get_cluster_logs` call: the
`random.random() > 0.7` problematic-pod gate and one `LogLineDraw` per line
index. -/
structure LogsOracle where
  problemGate : Bool
  lineDraws : ℕ → LogLineDraw

/-- Source `get_cluster_logs` (lines 210-262): generate `lines` synthetic
log lines (error-heavy when the pod is problematic), filter by the
requested severity, count errors and warnings, set the anomaly flag by the
`error_count > lines * 0.2` threshold, and return only the last 50 entries. -/
def get_cluster_logs (o : LogsOracle) (now : ℚ) (pod_name : String) (lines : ℕ)
    (severity : String) : LogsResult :=
  let is_problematic := strContains (pyLower pod_name) "crash" || o.problemGate
  let log_entries := (List.range lines).foldl
    (fun acc i =>
      let d := o.lineDraws i
      let timestamp := now - ((lines - i : ℕ) : ℚ)
      let log_severity :=
        if is_problematic && d.errGate then "ERROR"
        else LOG_SEVERITIES.getD (d.sevRoll % LOG_SEVERITIES.length) "INFO"
      let message :=
        if is_problematic && d.errGate then ERROR_MESSAGES.getD (d.errMsgRoll % ERROR_MESSAGES.length) ""
        else OK_MESSAGES.getD (d.okMsgRoll % OK_MESSAGES.length) ""
      if severity ≠ "all" ∧ log_severity ≠ severity then acc
      else
        let entry : LogEntry :=
          { timestamp := timestamp, severity := log_severity,
            pod := if pod_name ≠ "all" then pod_name
                   else POD_NAMES.getD (d.podRoll % POD_NAMES.length) "",
            message := message }
        acc ++ [entry]) []
  let error_count := (log_entries.filter (fun l => l.severity = "ERROR")).length
  let anomaly_detected : Bool := decide ((error_count : ℚ) > (lines : ℚ) * (0.2 : ℚ))
  { pod := pod_name,
    total_lines := log_entries.length,
    error_count := error_count,
    warning_count := (log_entries.filter (fun l => l.severity = "WARN")).length,
    anomaly_detected := anomaly_detected,
    anomaly_description :=
      if anomaly_detected then
        some ("High error rate: " ++ toString error_count ++ "/" ++ toString lines ++ " errors")
      else none,
    logs := log_entries.drop (log_entries.length - 50) }

/-! Active-alert listing. -/

/-- The return value of `get_active_alerts`. -/
structure AlertsResult where
  total_alerts : ℕ
  critical : ℕ
  warning : ℕ
  info : ℕ
  alerts : List Alert
  timestamp : ℚ
deriving DecidableEq

/-- Source `get_active_alerts` (lines 265-286): first evict alerts older
than five minutes (`timestamp > now - 5 minutes` is kept), then filter by
severity and return the counts. The second component is the updated
`ACTIVE_ALERTS` store. -/
def get_active_alerts (store : List Alert) (now : ℚ) (severity : String) :
    AlertsResult × List Alert :=
  let store' := store.filter (fun a => decide (a.timestamp > now - 5 * 60))
  let filtered := if severity ≠ "all" then store'.filter (fun a => a.severity == severity) else store'
  ({ total_alerts := filtered.length,
     critical := (filtered.filter (fun a => a.severity = "critical")).length,
     warning := (filtered.filter (fun a => a.severity = "warning")).length,
     info := (filtered.filter (fun a => a.severity = "info")).length,
     alerts := filtered,
     timestamp := now }, store')

/-! Pod details. -/

/-- A container record of `get_pod_details`. -/
structure ContainerInfo where
  name : String
  image : String
  ready : Bool
deriving DecidableEq

/-- An event record of `get_pod_details`. -/
structure EventInfo where
  type : String
  reason : String
  message : String
deriving DecidableEq

/-- The return value of `get_pod_details`. -/
structure PodDetails where
  name : String
  ns : String
  status : String
  cpu_usage : ℚ
  memory_usage : ℚ
  restart_count : ℕ
  containers : List ContainerInfo
  events : List EventInfo
deriving DecidableEq

/-- Randomness consumed by one `get_pod_details` call: the status roll, the
cpu draws, the memory draw (`uniform(30, 85)`), and `randint(0, 5)`. -/
structure PodDetailsDraw where
  statusRoll : ℕ
  cpuBase : ℚ
  spikeGate : Bool
  spikeDraw : ℚ
  memDraw : ℚ
  restartRoll : ℕ
deriving DecidableEq

/-- Source `get_pod_details` (lines 289-309). -/
def get_pod_details (pod_name : String) (d : PodDetailsDraw) : PodDetails :=
  { name := pod_name,
    ns := "production",
    status := _generate_pod_status d.statusRoll,
    cpu_usage := pyRound (_generate_cpu_usage d.cpuBase d.spikeGate d.spikeDraw) 2,
    memory_usage := pyRound (_generate_memory_usage d.memDraw) 2,
    restart_count := d.restartRoll % 6,
    containers := [{ name := "main", image := "myapp:v1.2.3", ready := true }],
    events :=
      [{ type := "Normal", reason := "Started", message := "Container started" },
       { type := "Normal", reason := "Pulling", message := "Pulling image" }] }

/-! Incident response agent (`incident_response.py`). -/

/-- The alert payload handed to the pipeline. Each field mirrors a key the
code reads with `alert.get(...)`; a key that may be absent from the Python
dict is an `Option`. A falsy payload (Python `None` or the empty dict,
rejected by `if not alert`) is modelled by `Option AlertPayload = none` at
the entry points. -/
structure AlertPayload where
  id : Option String
  type : Option String
  severity : Option String
  resource : Option String
  message : Option String
deriving DecidableEq

/-- The `root_cause` record produced by the diagnose stage. -/
structure RootCause where
  summary : String
  evidence : List String
deriving DecidableEq

/-- The `IncidentState` dict threaded through the pipeline: one optional
field per dynamically-added key. -/
structure IncidentState where
  alert : Option AlertPayload
  include_recommendations : Bool
  pod_details : Option PodDetails
  logs : Option LogsResult
  root_cause : Option RootCause
  recommendations : Option (List String)
  error : Option String
deriving DecidableEq

/-- The incident agent: `llm` is `none` when no `OPENAI_API_KEY` is
configured. A configured backend is a function from the prompt to either a
raised exception (modelled as `Except.error` with the exception text) or
the returned free-text content. -/
structure IncidentResponseAgent where
  llm : Option (String → Except String String)

/-- Randomness consumed by one pipeline run: the draws of the
`get_pod_details` call made by the enrich stage and of the
`get_cluster_logs` call made by the log-analysis stage. -/
structure PipelineOracle where
  podDraw : PodDetailsDraw
  logsOracle : LogsOracle
  logsNow : ℚ

/-- Stage `_enrich_alert` (lines 124-133): record an error if the alert is
missing from the state, otherwise fetch pod details for the alert's
resource (default `"unknown"`). This stage raises no exception. -/
def _enrich_alert (o : PipelineOracle) (s : IncidentState) : IncidentState :=
  match s.alert with
  | none => { s with error := some "Alert is missing from state" }
  | some alert =>
    { s with pod_details := some (get_pod_details (alert.resource.getD "unknown") o.podDraw) }

/-- Stage `_analyze_logs` (lines 135-144): record an error if the alert is
missing, otherwise fetch 120 log lines for the alert's resource (default
`"all"`). This stage raises no exception. -/
def _analyze_logs (o : PipelineOracle) (s : IncidentState) : IncidentState :=
  match s.alert with
  | none => { s with error := some "Alert is missing from state" }
  | some alert =>
    { s with logs := some (get_cluster_logs o.logsOracle o.logsNow (alert.resource.getD "all") 120 "all") }

/-- The fixed fallback root-cause sentence of `_diagnose_root_cause`. -/
def FALLBACK_SUMMARY : String := "Likely resource saturation or error spike in service"

/-- The evidence list built by the deterministic fallback of
`_diagnose_root_cause`: the alert type, the error count from the
log-analysis stage (default 0) and the pod status from the enrich stage
(default `"unknown"`). -/
def fallbackEvidence (alert : AlertPayload) (logs : Option LogsResult)
    (pod_details : Option PodDetails) : List String :=
  ["Alert type: " ++ pyOptStr alert.type,
   "Error count: " ++ toString (match logs with | some l => l.error_count | none => 0),
   "Pod status: " ++ (match pod_details with | some p => p.status | none => "unknown")]

/-- The prompt built for the LLM-backed diagnose path. Python interpolates
the `repr` of the alert and pod-detail dicts; the exact rendering is
abstracted by field concatenation (the prompt text never influences any
state transition in this model). -/
def diagnosePrompt (alert : AlertPayload) (pod_details : Option PodDetails)
    (logs : Option LogsResult) : String :=
  "You are a site reliability engineer. Analyze the alert and logs to find root cause.\n" ++
    "Alert: " ++ pyOptStr alert.id ++ " " ++ pyOptStr alert.type ++ " " ++
      pyOptStr alert.severity ++ " " ++ pyOptStr alert.resource ++ "\n" ++
    "Pod details: " ++ (match pod_details with | some p => p.name ++ " " ++ p.status | none => "") ++ "\n" ++
    "Log summary: errors=" ++
      (match logs with | some l => toString l.error_count | none => "None") ++
    " warnings=" ++
      (match logs with | some l => toString l.warning_count | none => "None") ++ "\n" ++
    "Provide a concise root cause summary and evidence list."

/-- Stage `_diagnose_root_cause` (lines 146-180). With no backend it sets
the fixed fallback root cause; with a backend it invokes the model and uses
the trimmed reply as summary. A raised exception from the backend is
propagated as `Except.error` carrying the exception text and the state at
the raise point (the state is unchanged there: Python mutates it only
after `invoke` returns). -/
def _diagnose_root_cause (agent : IncidentResponseAgent) (s : IncidentState) :
    Except (String × IncidentState) IncidentState :=
  match s.alert with
  | none =>
    let rc : RootCause := { summary := "No alert available to analyze", evidence := [] }
    .ok { s with root_cause := some rc }
  | some alert =>
    match agent.llm with
    | none =>
      let rc : RootCause :=
        { summary := FALLBACK_SUMMARY,
          evidence := fallbackEvidence alert s.logs s.pod_details }
      .ok { s with root_cause := some rc }
    | some invoke =>
      match invoke (diagnosePrompt alert s.pod_details s.logs) with
      | .error exc => .error (exc, s)
      | .ok content =>
        let rc : RootCause :=
          { summary := pyStrip content, evidence := ["AI analysis based on alert and logs"] }
        .ok { s with root_cause := some rc }

/-- The fixed fallback recommendation list of `_recommend_actions`. -/
def FALLBACK_RECOMMENDATIONS : List String :=
  ["Restart affected pod",
   "Check downstream dependencies",
   "Scale deployment if CPU is saturated"]

/-- The prompt built for the LLM-backed recommend path. -/
def recommendPrompt (root_cause : String) : String :=
  "Provide 3 remediation steps for this incident.\n" ++
    "Root cause: " ++ root_cause ++ "\n" ++ "Return a bullet list."

/-- The lookup `state.get("root_cause", ...).get("summary", "")` performed
by `_recommend_actions`. -/
def rootCauseSummaryOf (s : IncidentState) : String :=
  match s.root_cause with
  | some rc => rc.summary
  | none => ""

/-- The post-processing of the LLM reply in `_recommend_actions`: the
nonempty lines with leading and trailing `-`/space characters stripped. -/
def recommendationSteps (content : String) : List String :=
  ((content.splitOn "\n").filter (fun line => pyStrip line ≠ "")).map
    (fun line => pyStripChars line ['-', ' '])

/-- Stage `_recommend_actions` (lines 182-205): empty list when
recommendations were not requested; fixed three-item fallback with no
backend; otherwise the first three processed reply lines. A raised
exception from the backend is propagated as `Except.error` with the state
at the raise point. -/
def _recommend_actions (agent : IncidentResponseAgent) (s : IncidentState) :
    Except (String × IncidentState) IncidentState :=
  if !s.include_recommendations then
    .ok { s with recommendations := some [] }
  else
    match agent.llm with
    | none => .ok { s with recommendations := some FALLBACK_RECOMMENDATIONS }
    | some invoke =>
      match invoke (recommendPrompt (rootCauseSummaryOf s)) with
      | .error exc => .error (exc, s)
      | .ok content =>
        .ok { s with recommendations := some ((recommendationSteps content).take 3) }

/-- The initial `IncidentState` built by both entry points. -/
def initState (alert : AlertPayload) (include_recommendations : Bool) : IncidentState :=
  { alert := some alert, include_recommendations := include_recommendations,
    pod_details := none, logs := none, root_cause := none,
    recommendations := none, error := none }

/-- The four stages run in order, as in the `try` block of
`analyze_incident_sync` (and in the unconditional edge chain of
`_build_graph`): a raised exception aborts the remaining stages and carries
the state accumulated so far. -/
def runStages (agent : IncidentResponseAgent) (o : PipelineOracle)
    (s : IncidentState) : Except (String × IncidentState) IncidentState :=
  match _diagnose_root_cause agent (_analyze_logs o (_enrich_alert o s)) with
  | .error e => .error e
  | .ok s3 => _recommend_actions agent s3

/-- The response dict of `analyze_incident_sync`, one optional field per
key that can occur in any of its three return shapes: the flat success
summary (`alert_id` … `recommendations`), the raw state returned by the
`except` handler (`alert` … `error`), and the early
`Missing alert payload` error. -/
structure SyncResponse where
  alert_id : Option (Option String) := none
  type : Option (Option String) := none
  severity : Option (Option String) := none
  resource : Option (Option String) := none
  message : Option (Option String) := none
  anomaly : Option (Option String) := none
  root_cause_field : Option (Option RootCause) := none
  recommendations_field : Option (List String) := none
  alert : Option AlertPayload := none
  include_recommendations_field : Option Bool := none
  pod_details : Option PodDetails := none
  logs : Option LogsResult := none
  error : Option String := none
deriving DecidableEq

/-- Source `analyze_incident_sync` (lines 63-92): reject a falsy alert
payload; otherwise run the four stages in order and return the flat
summary dict; if a stage raises, catch the exception and return the
accumulated state dict with an added `error` field. -/
def analyze_incident_sync (agent : IncidentResponseAgent) (o : PipelineOracle)
    (alert : Option AlertPayload) (include_recommendations : Bool) : SyncResponse :=
  match alert with
  | none => { error := some "Missing alert payload" }
  | some a =>
    match runStages agent o (initState a include_recommendations) with
    | .ok s =>
      { alert_id := some (s.alert.bind (fun b => b.id)),
        type := some (s.alert.bind (fun b => b.type)),
        severity := some (s.alert.bind (fun b => b.severity)),
        resource := some (s.alert.bind (fun b => b.resource)),
        message := some (s.alert.bind (fun b => b.message)),
        anomaly := some (s.logs.bind (fun l => l.anomaly_description)),
        root_cause_field := some s.root_cause,
        recommendations_field := some (s.recommendations.getD []) }
    | .error (exc, s) =>
      { alert := s.alert,
        include_recommendations_field := some s.include_recommendations,
        pod_details := s.pod_details,
        logs := s.logs,
        root_cause_field := (match s.root_cause with | some rc => some (some rc) | none => none),
        recommendations_field := s.recommendations,
        error := some ("Analysis failed: " ++ exc) }

/-- Source `execute_runbook` (lines 94-102): simulated execution, always
succeeds and echoes the parameters. Parameters are kept abstract. -/
structure RunbookResult (π : Type) where
  runbook_id : String
  status : String
  parameters : π
  executed_at : ℚ
  result : String

/-- Simulated runbook execution. -/
def execute_runbook {π : Type} (runbook_id : String) (parameters : π) (now : ℚ) :
    RunbookResult π :=
  { runbook_id := runbook_id, status := "completed", parameters := parameters,
    executed_at := now, result := "Runbook executed successfully (simulated)" }

/-! Bottleneck detection and the server metrics history. -/

/-- A snapshot entry of a metrics-history category. -/
structure HistSnapshot (α : Type) where
  timestamp : ℚ
  data : α
deriving DecidableEq

/-- An entry of the alert-count history category (`mcp_server.py` stores
only a timestamp and a count there). -/
structure AlertCountEntry where
  timestamp : ℚ
  count : ℕ
deriving DecidableEq

/-- The `metrics_history` global of `mcp_server.py`. -/
structure MetricsHistory where
  k8s : List (HistSnapshot K8sMetrics)
  api : List (HistSnapshot GatewayMetrics)
  alerts : List AlertCountEntry
deriving DecidableEq

/-- A finding of `detect_bottlenecks`. -/
structure Finding where
  type : String
  resource : String
  severity : String
  message : String
deriving DecidableEq

/-- The return value of `detect_bottlenecks`. -/
structure BottleneckResult where
  threshold : String
  findings : List Finding
  summary : String
deriving DecidableEq

/-- The finding record appended by `detect_bottlenecks` for one slow
endpoint. -/
def apiLatencyFinding (e : EndpointData) : Finding :=
  { type := "api_latency", resource := e.path, severity := "high",
    message := "High p95 latency: " ++ toString e.latency_p95_ms ++ "ms" }

/-- Source `detect_bottlenecks` (lines 104-122): scan the most recent
gateway history entry (none when the `api` list is empty, which is falsy
in Python) and flag every endpoint whose stored p95 latency exceeds
1000 ms; the `threshold` argument is echoed but never used in the scan. -/
def detect_bottlenecks (metrics_history : MetricsHistory) (threshold : String) :
    BottleneckResult :=
  let findings :=
    match metrics_history.api.getLast? with
    | none => []
    | some entry =>
      entry.data.endpoints.foldl
        (fun acc e =>
          if e.latency_p95_ms > 1000 then acc ++ [apiLatencyFinding e]
          else acc) []
  { threshold := threshold, findings := findings,
    summary := "Detected " ++ toString findings.length ++ " bottlenecks" }

/-! Server state and tool dispatch (`mcp_server.py`). -/

/-- The process-wide mutable state of the server: the `metrics_history`
global of `mcp_server.py` and the `ACTIVE_ALERTS` global of
`metrics_generator.py`. -/
structure ServerState where
  history : MetricsHistory
  active_alerts : List Alert

/-- The initial server state: all three history categories and the alert
store start empty. -/
def initServerState : ServerState :=
  { history := { k8s := [], api := [], alerts := [] }, active_alerts := [] }

/-- One tool invocation handled by `call_tool`, together with the
randomness and wall-clock oracle its execution consumes. -/
inductive ToolCall where
  | getK8sClusterStatus (ns : String) (o : K8sOracle)
  | getApiGatewayMetrics (time_window : String) (o : GatewayOracle)
  | getPodLogs (pod_name : String) (lines : ℕ) (severity : String) (o : LogsOracle) (now : ℚ)
  | getActiveAlerts (severity : String) (now : ℚ)
  | analyzeIncident (alert_id : String) (include_recommendations : Bool) (now : ℚ)
  | executeRunbook (runbook_id : String)
  | getPerformanceBottlenecks (threshold : String)
  | unknownTool (toolname : String)

/-- The state effect of one `call_tool` dispatch (source lines 168-289).
The rendered JSON text responses are presentation and are not modelled;
only the mutations of `metrics_history` and `ACTIVE_ALERTS` are. The
`k8s` and `api` branches append a snapshot and then trim to the last 100
entries; the `get_active_alerts` branch appends an alert count with no
trim; `analyze_incident` calls `get_active_alerts("all")`, which evicts
expired alerts as a side effect. -/
def call_tool (st : ServerState) (c : ToolCall) : ServerState :=
  match c with
  | .getK8sClusterStatus ns o =>
    let r := get_k8s_metrics ns o st.active_alerts
    let entry : HistSnapshot K8sMetrics := { timestamp := o.now, data := r.1 }
    let l := st.history.k8s ++ [entry]
    let l := if l.length > 100 then l.drop (l.length - 100) else l
    { history := { st.history with k8s := l }, active_alerts := r.2 }
  | .getApiGatewayMetrics tw o =>
    let r := get_api_gateway_metrics tw o st.active_alerts
    let entry : HistSnapshot GatewayMetrics := { timestamp := o.now, data := r.1 }
    let l := st.history.api ++ [entry]
    let l := if l.length > 100 then l.drop (l.length - 100) else l
    { history := { st.history with api := l }, active_alerts := r.2 }
  | .getPodLogs _ _ _ _ _ => st
  | .getActiveAlerts severity now =>
    let r := get_active_alerts st.active_alerts now severity
    let entry : AlertCountEntry := { timestamp := now, count := r.1.alerts.length }
    { history := { st.history with alerts := st.history.alerts ++ [entry] },
      active_alerts := r.2 }
  | .analyzeIncident _ _ now =>
    let r := get_active_alerts st.active_alerts now "all"
    { history := st.history, active_alerts := r.2 }
  | .executeRunbook _ => st
  | .getPerformanceBottlenecks _ => st
  | .unknownTool _ => st

/-- A whole server run: fold the tool calls over the initial state. -/
def runServer (calls : List ToolCall) : ServerState :=
  calls.foldl call_tool initServerState

/-- Whether a tool call is a `get_active_alerts` invocation (the only
branch that appends to the alert-count history category). -/
def ToolCall.isGetActiveAlerts : ToolCall → Bool
  | .getActiveAlerts _ _ => true
  | _ => false

/-! Concrete instances used by witnesses and counterexamples. -/

/-- A concrete critical alert payload (the end-to-end scenario alert). -/
def alertPayloadW : AlertPayload :=
  { id := some "a1", type := some "CrashLoop", severity := some "critical",
    resource := some "pod-x", message := some "CrashLoop detected on pod-x" }

/-- A concrete malformed-but-truthy alert payload: a nonempty dict none of
whose recognized keys is present. -/
def malformedPayloadW : AlertPayload :=
  { id := none, type := none, severity := none, resource := none, message := none }

/-- A concrete draw for `get_pod_details`. -/
def podDetailsDrawW : PodDetailsDraw :=
  { statusRoll := 0, cpuBase := 40, spikeGate := false, spikeDraw := 0,
    memDraw := 50, restartRoll := 1 }

/-- A concrete log oracle: never problematic, all lines benign INFO. -/
def logsOracleW : LogsOracle :=
  { problemGate := false,
    lineDraws := fun _ => { errGate := false, sevRoll := 0, errMsgRoll := 0,
                            okMsgRoll := 0, podRoll := 0 } }

/-- A concrete pipeline oracle. -/
def pipelineOracleW : PipelineOracle :=
  { podDraw := podDetailsDrawW, logsOracle := logsOracleW, logsNow := 0 }

/-- The agent with no configured LLM backend (no `OPENAI_API_KEY`). -/
def agentNoLLM : IncidentResponseAgent := { llm := none }

/-- An agent whose configured backend raises on every invocation. -/
def agentFail : IncidentResponseAgent := { llm := some (fun _ => .error "boom") }

/-- The state reached after the enrich and log-analysis stages on the
concrete scenario input (the state the failing diagnose stage observes). -/
def stateAfterLogsW : IncidentState :=
  _analyze_logs pipelineOracleW (_enrich_alert pipelineOracleW (initState alertPayloadW true))

/-- The root cause produced by the fallback diagnose stage on the concrete
scenario input. -/
def rootCauseW : RootCause :=
  { summary := FALLBACK_SUMMARY,
    evidence := fallbackEvidence alertPayloadW stateAfterLogsW.logs stateAfterLogsW.pod_details }

/-- The scenario state after the fallback diagnose stage. -/
def stateDiagnosedW : IncidentState :=
  { stateAfterLogsW with root_cause := some rootCauseW }

/-- The scenario state after all four stages with the fallback agent. -/
def stateSuccessW : IncidentState :=
  { stateDiagnosedW with recommendations := some FALLBACK_RECOMMENDATIONS }

/-- A concrete slow endpoint snapshot (p95 latency 1500 ms). -/
def paymentsEndpointW : EndpointData :=
  { path := "/api/v1/payments", requests := 1000, success_rate := 99,
    error_rate := 1, latency_p50_ms := 500, latency_p95_ms := 1500,
    latency_p99_ms := 2200, throughput_rps := 3, code200 := 990,
    code400 := 3, code500 := 5, code503 := 2 }

/-- A concrete fast endpoint snapshot (p95 latency 200 ms). -/
def usersEndpointW : EndpointData :=
  { path := "/api/v1/users", requests := 500, success_rate := 99,
    error_rate := 1, latency_p50_ms := 80, latency_p95_ms := 200,
    latency_p99_ms := 300, throughput_rps := 2, code200 := 495,
    code400 := 2, code500 := 2, code503 := 1 }

/-- A concrete gateway snapshot holding the two endpoints above. -/
def gatewayMetricsW : GatewayMetrics :=
  { summary := { total_requests := 1500, total_errors := 15,
                 overall_success_rate := 99, avg_latency_ms := 290,
                 time_window := "5m" },
    endpoints := [paymentsEndpointW, usersEndpointW],
    timestamp := 0 }

/-- A concrete metrics history whose latest gateway entry is the snapshot
above. -/
def historyW : MetricsHistory :=
  { k8s := [], api := [{ timestamp := 0, data := gatewayMetricsW }], alerts := [] }

/-- A concrete per-pod draw whose cpu saturates (base 60 plus spike 40,
capped at 100) while staying in the valid uniform ranges; its status roll
selects `Running`. -/
def podDrawHighCpuW : PodDraw :=
  { statusRoll := 0, cpuBase := 60, spikeGate := true, spikeDraw := 40,
    memDraw := 50, restartRoll := 0, ageRoll := 0, alertId := "idW" }

/-- A concrete k8s oracle using the saturating draw for every pod. -/
def k8sOracleW : K8sOracle :=
  { draws := fun _ => podDrawHighCpuW, node1cpu := 50, node1mem := 60,
    node2cpu := 40, node2mem := 55, now := 0 }

/-! Shared lemmas about the alert store. -/

/-- The dedup invariant of the alert store: no two entries share a
`resource`. -/
def distinctResources (l : List Alert) : Prop :=
  l.Pairwise (fun a b => a.resource ≠ b.resource)

/-- The insert-if-absent step preserves resource distinctness. -/
theorem recordAlert_distinct (store : List Alert) (a : Alert)
    (h : distinctResources store) : distinctResources (recordAlert store a) := by
  unfold recordAlert
  cases hf : store.find? (fun b => b.resource == a.resource) with
  | some b => exact h
  | none =>
    have hnone := List.find?_eq_none.mp hf
    refine List.pairwise_append.mpr ⟨h, List.pairwise_singleton _ _, ?_⟩
    intro x hx y hy
    have : y = a := by simpa using hy
    subst this
    intro heq
    exact hnone x hx (by simp [heq])

/-- The k8s per-pod loop step preserves resource distinctness. -/
theorem k8sPodStep_distinct (ns : String) (now : ℚ) (acc : K8sAcc) (idx : ℕ)
    (pod_name : String) (d : PodDraw) (h : distinctResources acc.alerts) :
    distinctResources (k8sPodStep ns now acc idx pod_name d).alerts := by
  unfold k8sPodStep
  dsimp only
  split
  · exact recordAlert_distinct _ _ h
  · exact h

/-- The gateway per-endpoint loop step preserves resource distinctness. -/
theorem gatewayEndpointStep_distinct (now : ℚ) (acc : GatewayAcc) (endpoint : String)
    (d : EndpointDraw) (h : distinctResources acc.alerts) :
    distinctResources (gatewayEndpointStep now acc endpoint d).alerts := by
  unfold gatewayEndpointStep
  dsimp only
  split
  · exact recordAlert_distinct _ _ h
  · exact h

/-- Folding the k8s loop preserves resource distinctness. -/
theorem k8sFold_distinct (ns : String) (now : ℚ) (dr : ℕ → PodDraw)
    (l : List (ℕ × String)) (acc : K8sAcc) (h : distinctResources acc.alerts) :
    distinctResources ((l.foldl (fun acc p => k8sPodStep ns now acc p.1 p.2 (dr p.1)) acc).alerts) := by
  induction l generalizing acc with
  | nil => exact h
  | cons p t ih => exact ih _ (k8sPodStep_distinct _ _ _ _ _ _ h)

/-- Folding the gateway loop preserves resource distinctness. -/
theorem gatewayFold_distinct (now : ℚ) (dr : ℕ → EndpointDraw)
    (l : List (ℕ × String)) (acc : GatewayAcc) (h : distinctResources acc.alerts) :
    distinctResources ((l.foldl (fun acc p => gatewayEndpointStep now acc p.2 (dr p.1)) acc).alerts) := by
  induction l generalizing acc with
  | nil => exact h
  | cons p t ih => exact ih _ (gatewayEndpointStep_distinct _ _ _ _ h)

/-- `get_k8s_metrics` preserves resource distinctness of the store. -/
theorem get_k8s_metrics_distinct (ns : String) (o : K8sOracle) (store : List Alert)
    (h : distinctResources store) :
    distinctResources (get_k8s_metrics ns o store).2 := by
  unfold get_k8s_metrics
  exact k8sFold_distinct _ _ _ _ _ h

/-- `get_api_gateway_metrics` preserves resource distinctness of the store. -/
theorem get_api_gateway_metrics_distinct (tw : String) (o : GatewayOracle)
    (store : List Alert) (h : distinctResources store) :
    distinctResources (get_api_gateway_metrics tw o store).2 := by
  unfold get_api_gateway_metrics
  exact gatewayFold_distinct _ _ _ _ h

/-- Eviction (a filter) preserves resource distinctness. -/
theorem get_active_alerts_distinct (store : List Alert) (now : ℚ) (severity : String)
    (h : distinctResources store) :
    distinctResources (get_active_alerts store now severity).2 := by
  unfold get_active_alerts
  exact List.Pairwise.sublist (List.filter_sublist _) h

/-- Every tool dispatch preserves resource distinctness of the store. -/
theorem call_tool_distinct (st : ServerState) (c : ToolCall)
    (h : distinctResources st.active_alerts) :
    distinctResources (call_tool st c).active_alerts := by
  cases c with
  | getK8sClusterStatus ns o => exact get_k8s_metrics_distinct ns o _ h
  | getApiGatewayMetrics tw o => exact get_api_gateway_metrics_distinct tw o _ h
  | getPodLogs _ _ _ _ _ => exact h
  | getActiveAlerts sev now => exact get_active_alerts_distinct _ now sev h
  | analyzeIncident _ _ now => exact get_active_alerts_distinct _ now "all" h
  | executeRunbook _ => exact h
  | getPerformanceBottlenecks _ => exact h
  | unknownTool _ => exact h

/-- Resource distinctness holds along any whole server run. -/
theorem runServer_distinct_aux (calls : List ToolCall) (st : ServerState)
    (h : distinctResources st.active_alerts) :
    distinctResources ((calls.foldl call_tool st).active_alerts) := by
  induction calls generalizing st with
  | nil => exact h
  | cons c t ih => exact ih _ (call_tool_distinct _ _ h)

/-- C1. Dedup invariant of the alert store: along every sequence of tool
calls (in particular every sequence of `get_k8s_metrics` and
`get_api_gateway_metrics` calls, the only operations that insert alerts)
the active-alert store never holds two alerts with the same `resource`;
moreover the shared insert step is a no-op exactly when an active alert
with the same resource already exists, and appends the alert otherwise. -/
theorem alert_store_dedup_invariant :
    (∀ calls : List ToolCall,
      ((runServer calls).active_alerts).Pairwise (fun a b => a.resource ≠ b.resource))
    ∧ (∀ (store : List Alert) (a : Alert),
        (∃ b ∈ store, b.resource = a.resource) → recordAlert store a = store)
    ∧ (∀ (store : List Alert) (a : Alert),
        (∀ b ∈ store, b.resource ≠ a.resource) → recordAlert store a = store ++ [a]) := by
  refine ⟨?_, ?_, ?_⟩
  · intro calls
    exact runServer_distinct_aux calls initServerState (List.Pairwise.nil)
  · intro store a h
    obtain ⟨b, hb, hres⟩ := h
    unfold recordAlert
    cases hf : store.find? (fun c => c.resource == a.resource) with
    | some c => rfl
    | none =>
      exact absurd (by simp [hres]) (List.find?_eq_none.mp hf b hb)
  · intro store a h
    unfold recordAlert
    cases hf : store.find? (fun c => c.resource == a.resource) with
    | some c =>
      have hc := List.find?_some hf
      have hmem := List.mem_of_find?_eq_some hf
      exact absurd (by simpa using hc) (h c hmem)
    | none => rfl

/-- C1 witness: the dedup theorem applied at concrete inputs, including a
duplicate-resource insert that is a no-op and a fresh insert that appends. -/
theorem alert_store_dedup_invariant_witness :
    ((runServer [ToolCall.getActiveAlerts "all" 0]).active_alerts).Pairwise
      (fun a b => a.resource ≠ b.resource)
    ∧ recordAlert
        [{ id := "a1", type := "CrashLoop", severity := "critical", resource := "pod-x",
           message := "m1", timestamp := 0, status := "firing" }]
        { id := "a2", type := "HighResourceUsage", severity := "warning", resource := "pod-x",
          message := "m2", timestamp := 1, status := "firing" }
      = [{ id := "a1", type := "CrashLoop", severity := "critical", resource := "pod-x",
           message := "m1", timestamp := 0, status := "firing" }]
    ∧ recordAlert []
        { id := "a1", type := "CrashLoop", severity := "critical", resource := "pod-x",
          message := "m1", timestamp := 0, status := "firing" }
      = [{ id := "a1", type := "CrashLoop", severity := "critical", resource := "pod-x",
           message := "m1", timestamp := 0, status := "firing" }] := by
  refine ⟨alert_store_dedup_invariant.1 _, ?_, ?_⟩
  · exact alert_store_dedup_invariant.2.1 _ _ ⟨_, List.mem_singleton_self _, rfl⟩
  · exact alert_store_dedup_invariant.2.2 _ _ (by intro b hb; cases hb)

/-- C2. Expiry invariant: whenever `get_active_alerts` is called at a time
at least five minutes past an alert's creation timestamp, that alert is
neither in the returned alert list nor in the updated store, for every
requested severity filter. -/
theorem expired_alert_evicted (store : List Alert) (now : ℚ) (severity : String)
    (a : Alert) (h : now - a.timestamp ≥ 5 * 60) :
    a ∉ (get_active_alerts store now severity).1.alerts
    ∧ a ∉ (get_active_alerts store now severity).2 := by
  have hkeep : ¬ (a.timestamp > now - 5 * 60) := by linarith
  constructor
  · intro hmem
    unfold get_active_alerts at hmem
    dsimp only at hmem
    have hmem' : a ∈ store.filter (fun b => decide (b.timestamp > now - 5 * 60)) := by
      by_cases hs : severity ≠ "all"
      · simp only [if_pos hs] at hmem
        exact (List.filter_sublist _).mem hmem
      · simpa [if_neg hs] using hmem
    have := (List.mem_filter.mp hmem').2
    simp only [decide_eq_true_eq] at this
    exact hkeep this
  · intro hmem
    unfold get_active_alerts at hmem
    dsimp only at hmem
    have := (List.mem_filter.mp hmem).2
    simp only [decide_eq_true_eq] at this
    exact hkeep this

/-- C2 witness: a five-minute-old alert is dropped from both the response
and the store at a concrete call. -/
theorem expired_alert_evicted_witness :
    ((1000 : ℚ) - 0 ≥ 5 * 60)
    ∧ ({ id := "a1", type := "CrashLoop", severity := "critical", resource := "pod-x",
         message := "m1", timestamp := 0, status := "firing" : Alert }
        ∉ (get_active_alerts
            [{ id := "a1", type := "CrashLoop", severity := "critical", resource := "pod-x",
               message := "m1", timestamp := 0, status := "firing" }] 1000 "all").1.alerts)
    ∧ ({ id := "a1", type := "CrashLoop", severity := "critical", resource := "pod-x",
         message := "m1", timestamp := 0, status := "firing" : Alert }
        ∉ (get_active_alerts
            [{ id := "a1", type := "CrashLoop", severity := "critical", resource := "pod-x",
               message := "m1", timestamp := 0, status := "firing" }] 1000 "all").2) := by
  have h := expired_alert_evicted
    [{ id := "a1", type := "CrashLoop", severity := "critical", resource := "pod-x",
       message := "m1", timestamp := 0, status := "firing" }] 1000 "all"
    { id := "a1", type := "CrashLoop", severity := "critical", resource := "pod-x",
      message := "m1", timestamp := 0, status := "firing" }
    (by norm_num)
  exact ⟨by norm_num, h.1, h.2⟩

/-! C7: anomaly threshold of the log generator. -/

/-- The float threshold `error_count > lines * 0.2` coincides with the
exact integer comparison `5 * error_count > lines`. -/
theorem errRatio_iff (E L : ℕ) : ((E:ℚ) > (L:ℚ) * (0.2:ℚ)) ↔ 5 * E > L := by
  have h5 : (0:ℚ) < 5 := by norm_num
  rw [gt_iff_lt, show (0.2:ℚ) = 1/5 by norm_num, mul_one_div, div_lt_iff₀ h5]
  constructor
  · intro h
    have h2 : (L:ℚ) < ((5 * E : ℕ) : ℚ) := by push_cast; linarith
    exact_mod_cast h2
  · intro h
    have h2 : ((L:ℕ):ℚ) < ((5 * E : ℕ):ℚ) := by exact_mod_cast h
    push_cast at h2
    linarith

/-- C7. Anomaly threshold: for every `get_cluster_logs` call requesting
`lines` lines, the returned `anomaly_detected` flag is true exactly when
the returned `error_count` exceeds `0.2 *` the requested line count
(equivalently, `5 * error_count > lines`). -/
theorem log_anomaly_threshold (o : LogsOracle) (now : ℚ) (pod_name : String)
    (lines : ℕ) (severity : String) :
    ((get_cluster_logs o now pod_name lines severity).anomaly_detected = true ↔
      ((get_cluster_logs o now pod_name lines severity).error_count : ℚ) >
        (lines : ℚ) * (0.2:ℚ))
    ∧ ((get_cluster_logs o now pod_name lines severity).anomaly_detected = true ↔
      5 * (get_cluster_logs o now pod_name lines severity).error_count > lines) := by
  have hdef : (get_cluster_logs o now pod_name lines severity).anomaly_detected =
      decide (((get_cluster_logs o now pod_name lines severity).error_count : ℚ) >
        (lines:ℚ) * (0.2:ℚ)) := rfl
  constructor
  · rw [hdef]
    exact ⟨of_decide_eq_true, decide_eq_true⟩
  · rw [hdef]
    exact ⟨fun h => (errRatio_iff _ _).mp (of_decide_eq_true h),
           fun h => decide_eq_true ((errRatio_iff _ _).mpr h)⟩

/-! C9: bottleneck detection. -/

/-- The accumulator fold of `detect_bottlenecks` is a filter-map. -/
theorem bottleneck_fold_eq (es : List EndpointData) (acc : List Finding) :
    es.foldl (fun acc e => if e.latency_p95_ms > 1000 then acc ++ [apiLatencyFinding e] else acc) acc
      = acc ++ es.filterMap
          (fun e => if e.latency_p95_ms > 1000 then some (apiLatencyFinding e) else none) := by
  induction es generalizing acc with
  | nil => simp
  | cons e t ih =>
    simp only [List.foldl_cons, List.filterMap_cons]
    by_cases h : e.latency_p95_ms > 1000
    · rw [if_pos h, if_pos h, ih]
      simp
    · rw [if_neg h, if_neg h, ih]

/-- C9. Bottleneck detection: when the history has a most recent gateway
entry, the findings are exactly one `api_latency`/`high` finding per
endpoint of that entry whose stored p95 latency strictly exceeds 1000 ms
(endpoints at or below 1000 ms produce none), and the `threshold` argument
never changes the findings. -/
theorem detect_bottlenecks_spec (h : MetricsHistory) (threshold : String)
    (entry : HistSnapshot GatewayMetrics) (hl : h.api.getLast? = some entry) :
    ((detect_bottlenecks h threshold).findings =
      entry.data.endpoints.filterMap
        (fun e => if e.latency_p95_ms > 1000 then some (apiLatencyFinding e) else none))
    ∧ (∀ f ∈ (detect_bottlenecks h threshold).findings,
        f.type = "api_latency" ∧ f.severity = "high")
    ∧ (∀ t₂ : String,
        (detect_bottlenecks h threshold).findings = (detect_bottlenecks h t₂).findings) := by
  have hfind : (detect_bottlenecks h threshold).findings =
      entry.data.endpoints.filterMap
        (fun e => if e.latency_p95_ms > 1000 then some (apiLatencyFinding e) else none) := by
    unfold detect_bottlenecks
    dsimp only
    rw [hl]
    simpa using bottleneck_fold_eq entry.data.endpoints []
  refine ⟨hfind, ?_, ?_⟩
  · intro f hf
    rw [hfind] at hf
    obtain ⟨e, _, hfe⟩ := List.mem_filterMap.mp hf
    by_cases hc : e.latency_p95_ms > 1000
    · rw [if_pos hc] at hfe
      cases hfe
      exact ⟨rfl, rfl⟩
    · rw [if_neg hc] at hfe
      cases hfe
  · intro t₂
    rfl

/-- C9 witness: the theorem applied to the concrete history whose latest
gateway snapshot has `/api/v1/payments` at 1500 ms p95 and `/api/v1/users`
at 200 ms: the findings are exactly the one payments finding. -/
theorem detect_bottlenecks_spec_witness :
    historyW.api.getLast? = some { timestamp := 0, data := gatewayMetricsW }
    ∧ (detect_bottlenecks historyW "medium").findings = [apiLatencyFinding paymentsEndpointW]
    ∧ (detect_bottlenecks historyW "medium").findings
        = (detect_bottlenecks historyW "low").findings := by
  have h := detect_bottlenecks_spec historyW "medium"
    { timestamp := 0, data := gatewayMetricsW } rfl
  refine ⟨rfl, ?_, h.2.2 "low"⟩
  rw [h.1]
  have hp : (1000:ℚ) < 1500 := by norm_num
  have hu : ¬ ((1000:ℚ) < 200) := by norm_num
  simp [gatewayMetricsW, paymentsEndpointW, usersEndpointW, hp, hu]

/-! Stage bookkeeping lemmas for the incident pipeline. -/

/-- The enrich stage changes neither the recommendations nor the request
flag nor the alert. -/
theorem _enrich_alert_fields (o : PipelineOracle) (s : IncidentState) :
    (_enrich_alert o s).recommendations = s.recommendations
    ∧ (_enrich_alert o s).include_recommendations = s.include_recommendations
    ∧ (_enrich_alert o s).alert = s.alert := by
  unfold _enrich_alert
  cases hs : s.alert <;> simp

/-- The log-analysis stage changes neither the recommendations nor the
request flag nor the alert. -/
theorem _analyze_logs_fields (o : PipelineOracle) (s : IncidentState) :
    (_analyze_logs o s).recommendations = s.recommendations
    ∧ (_analyze_logs o s).include_recommendations = s.include_recommendations
    ∧ (_analyze_logs o s).alert = s.alert := by
  unfold _analyze_logs
  cases hs : s.alert <;> simp

/-- On success the diagnose stage changes neither the recommendations nor
the request flag. -/
theorem _diagnose_ok_fields (agent : IncidentResponseAgent) (s r : IncidentState)
    (h : _diagnose_root_cause agent s = .ok r) :
    r.recommendations = s.recommendations
    ∧ r.include_recommendations = s.include_recommendations := by
  unfold _diagnose_root_cause at h
  cases ha : s.alert with
  | none =>
    rw [ha] at h
    dsimp only at h
    cases h
    exact ⟨rfl, rfl⟩
  | some alert =>
    rw [ha] at h
    dsimp only at h
    cases hl : agent.llm with
    | none =>
      rw [hl] at h
      dsimp only at h
      cases h
      exact ⟨rfl, rfl⟩
    | some invoke =>
      rw [hl] at h
      dsimp only at h
      cases hi : invoke (diagnosePrompt alert s.pod_details s.logs) with
      | error exc =>
        rw [hi] at h
        dsimp only at h
        cases h
      | ok content =>
        rw [hi] at h
        dsimp only at h
        cases h
        exact ⟨rfl, rfl⟩

/-- On failure the diagnose stage carries the state it observed,
unchanged. -/
theorem _diagnose_err_state (agent : IncidentResponseAgent) (s : IncidentState)
    (e : String) (st : IncidentState)
    (h : _diagnose_root_cause agent s = .error (e, st)) : st = s := by
  unfold _diagnose_root_cause at h
  cases ha : s.alert with
  | none =>
    rw [ha] at h
    dsimp only at h
    cases h
  | some alert =>
    rw [ha] at h
    dsimp only at h
    cases hl : agent.llm with
    | none =>
      rw [hl] at h
      dsimp only at h
      cases h
    | some invoke =>
      rw [hl] at h
      dsimp only at h
      cases hi : invoke (diagnosePrompt alert s.pod_details s.logs) with
      | error exc =>
        rw [hi] at h
        dsimp only at h
        cases h
        rfl
      | ok content =>
        rw [hi] at h
        dsimp only at h
        cases h

/-- On success the recommend stage leaves at most three recommendations. -/
theorem _recommend_ok_cap (agent : IncidentResponseAgent) (s r : IncidentState)
    (h : _recommend_actions agent s = .ok r) :
    (r.recommendations.getD []).length ≤ 3 := by
  unfold _recommend_actions at h
  cases hb : s.include_recommendations with
  | false =>
    rw [hb] at h
    simp only [Bool.not_false, if_true] at h
    cases h
    simp
  | true =>
    rw [hb] at h
    simp only [Bool.not_true, Bool.false_eq_true, if_false] at h
    cases hl : agent.llm with
    | none =>
      rw [hl] at h
      dsimp only at h
      cases h
      simp [FALLBACK_RECOMMENDATIONS]
    | some invoke =>
      rw [hl] at h
      dsimp only at h
      cases hi : invoke (recommendPrompt (rootCauseSummaryOf s)) with
      | error exc =>
        rw [hi] at h
        dsimp only at h
        cases h
      | ok content =>
        rw [hi] at h
        dsimp only at h
        cases h
        simpa using List.length_take_le 3 _

/-- With the request flag off, the recommend stage succeeds with an empty
list. -/
theorem _recommend_off (agent : IncidentResponseAgent) (s : IncidentState)
    (h : s.include_recommendations = false) :
    _recommend_actions agent s = .ok { s with recommendations := some [] } := by
  unfold _recommend_actions
  rw [h]
  rfl

/-- On failure the recommend stage carries the state it observed,
unchanged. -/
theorem _recommend_err_state (agent : IncidentResponseAgent) (s : IncidentState)
    (e : String) (st : IncidentState)
    (h : _recommend_actions agent s = .error (e, st)) : st = s := by
  unfold _recommend_actions at h
  cases hb : s.include_recommendations with
  | false =>
    rw [hb] at h
    simp only [Bool.not_false, if_true] at h
    cases h
  | true =>
    rw [hb] at h
    simp only [Bool.not_true, Bool.false_eq_true, if_false] at h
    cases hl : agent.llm with
    | none =>
      rw [hl] at h
      dsimp only at h
      cases h
    | some invoke =>
      rw [hl] at h
      dsimp only at h
      cases hi : invoke (recommendPrompt (rootCauseSummaryOf s)) with
      | error exc =>
        rw [hi] at h
        dsimp only at h
        cases h
        rfl
      | ok content =>
        rw [hi] at h
        dsimp only at h
        cases h

/-- Along `runStages` the recommendation list of the resulting state (on
either exit) never exceeds three entries, starting from an initial state. -/
theorem runStages_rec_bounds (agent : IncidentResponseAgent) (o : PipelineOracle)
    (a : AlertPayload) (inc : Bool) :
    (∀ s, runStages agent o (initState a inc) = .ok s →
      (s.recommendations.getD []).length ≤ 3)
    ∧ (∀ e st, runStages agent o (initState a inc) = .error (e, st) →
      st.recommendations = none) := by
  have hrec2 : (_analyze_logs o (_enrich_alert o (initState a inc))).recommendations = none := by
    rw [(_analyze_logs_fields _ _).1, (_enrich_alert_fields _ _).1]
    rfl
  constructor
  · intro s h
    unfold runStages at h
    cases hd : _diagnose_root_cause agent (_analyze_logs o (_enrich_alert o (initState a inc))) with
    | error e => rw [hd] at h; cases h
    | ok s3 =>
      rw [hd] at h
      exact _recommend_ok_cap agent s3 s h
  · intro e st h
    unfold runStages at h
    cases hd : _diagnose_root_cause agent (_analyze_logs o (_enrich_alert o (initState a inc))) with
    | error e2 =>
      rw [hd] at h
      cases h
      rw [_diagnose_err_state _ _ _ _ hd]
      exact hrec2
    | ok s3 =>
      rw [hd] at h
      rw [_recommend_err_state _ _ _ _ h]
      rw [(_diagnose_ok_fields _ _ _ hd).1]
      exact hrec2

/-- With recommendations not requested, a successful run ends with an
explicitly empty recommendation list. -/
theorem runStages_false_ok (agent : IncidentResponseAgent) (o : PipelineOracle)
    (a : AlertPayload) (s : IncidentState)
    (h : runStages agent o (initState a false) = .ok s) :
    s.recommendations = some [] := by
  unfold runStages at h
  cases hd : _diagnose_root_cause agent (_analyze_logs o (_enrich_alert o (initState a false))) with
  | error e =>
    rw [hd] at h
    cases h
  | ok s3 =>
    rw [hd] at h
    dsimp only at h
    have hflag : s3.include_recommendations = false := by
      rw [(_diagnose_ok_fields _ _ _ hd).2, (_analyze_logs_fields _ _).2.1,
        (_enrich_alert_fields _ _).2.1]
      rfl
    rw [_recommend_off agent s3 hflag] at h
    cases h
    rfl

/-! C3: the synchronous entry point absorbs stage exceptions. -/

/-- C3. For every alert payload and every exception raised inside a stage
during `analyze_incident_sync` (modelled by a failing `runStages`), the
entry point catches it and returns a response holding an `error` field
with the exception text together with every field of the state accumulated
by the stages that completed before the failure. The Lean model is total,
so no exception can propagate to the caller by construction. -/
theorem sync_failure_absorbed (agent : IncidentResponseAgent) (o : PipelineOracle)
    (a : AlertPayload) (inc : Bool) (exc : String) (st : IncidentState)
    (h : runStages agent o (initState a inc) = .error (exc, st)) :
    analyze_incident_sync agent o (some a) inc =
      { alert := st.alert,
        include_recommendations_field := some st.include_recommendations,
        pod_details := st.pod_details,
        logs := st.logs,
        root_cause_field := (match st.root_cause with | some rc => some (some rc) | none => none),
        recommendations_field := st.recommendations,
        error := some ("Analysis failed: " ++ exc) } := by
  unfold analyze_incident_sync
  dsimp only
  rw [h]

/-- C3 witness: with a backend that raises, the concrete scenario run
fails at the diagnose stage and the entry point returns the enriched
partial state with the error text. -/
theorem sync_failure_absorbed_witness :
    runStages agentFail pipelineOracleW (initState alertPayloadW true)
      = .error ("boom", stateAfterLogsW)
    ∧ analyze_incident_sync agentFail pipelineOracleW (some alertPayloadW) true =
      { alert := stateAfterLogsW.alert,
        include_recommendations_field := some stateAfterLogsW.include_recommendations,
        pod_details := stateAfterLogsW.pod_details,
        logs := stateAfterLogsW.logs,
        root_cause_field :=
          (match stateAfterLogsW.root_cause with | some rc => some (some rc) | none => none),
        recommendations_field := stateAfterLogsW.recommendations,
        error := some ("Analysis failed: " ++ "boom") } := by
  have h : runStages agentFail pipelineOracleW (initState alertPayloadW true)
      = .error ("boom", stateAfterLogsW) := rfl
  exact ⟨h, sync_failure_absorbed agentFail pipelineOracleW alertPayloadW true "boom"
    stateAfterLogsW h⟩

/-! C4: shape of the synchronous response. -/

/-- C4 counterexample: when a stage fails, `analyze_incident_sync` does
return the raw intermediate pipeline state — at this concrete input the
response carries the `pod_details` and `logs` records produced by the
earlier stages, contradicting the claim that the returned value is always
the flat summary and never the intermediate state. -/
theorem sync_failure_leaks_intermediate_state :
    (analyze_incident_sync agentFail pipelineOracleW (some alertPayloadW) true).pod_details
      = some (get_pod_details "pod-x" podDetailsDrawW)
    ∧ (analyze_incident_sync agentFail pipelineOracleW (some alertPayloadW) true).logs
      = some (get_cluster_logs logsOracleW 0 "pod-x" 120 "all")
    ∧ (analyze_incident_sync agentFail pipelineOracleW (some alertPayloadW) true).pod_details
      ≠ none := by
  refine ⟨rfl, rfl, ?_⟩
  rw [show (analyze_incident_sync agentFail pipelineOracleW (some alertPayloadW) true).pod_details
    = some (get_pod_details "pod-x" podDetailsDrawW) from rfl]
  exact Option.some_ne_none _

/-- C4 (amended). When every stage succeeds, the response is exactly the
flat summary: the five alert identity fields, the anomaly description, the
root-cause object and the recommendation list, with none of the raw
intermediate state fields (`alert`, `pod_details`, `logs`, `error`)
present. When a stage fails, the raw accumulated state is returned
instead (see the counterexample). -/
theorem sync_success_flat_summary (agent : IncidentResponseAgent) (o : PipelineOracle)
    (a : AlertPayload) (inc : Bool) (st : IncidentState)
    (h : runStages agent o (initState a inc) = .ok st) :
    analyze_incident_sync agent o (some a) inc =
      { alert_id := some (st.alert.bind (fun b => b.id)),
        type := some (st.alert.bind (fun b => b.type)),
        severity := some (st.alert.bind (fun b => b.severity)),
        resource := some (st.alert.bind (fun b => b.resource)),
        message := some (st.alert.bind (fun b => b.message)),
        anomaly := some (st.logs.bind (fun l => l.anomaly_description)),
        root_cause_field := some st.root_cause,
        recommendations_field := some (st.recommendations.getD []) }
    ∧ (analyze_incident_sync agent o (some a) inc).pod_details = none
    ∧ (analyze_incident_sync agent o (some a) inc).logs = none
    ∧ (analyze_incident_sync agent o (some a) inc).alert = none
    ∧ (analyze_incident_sync agent o (some a) inc).error = none := by
  unfold analyze_incident_sync
  dsimp only
  rw [h]
  exact ⟨rfl, rfl, rfl, rfl, rfl⟩

/-- C4 witness: the concrete fallback scenario run succeeds and returns
the flat summary with no intermediate state fields. -/
theorem sync_success_flat_summary_witness :
    runStages agentNoLLM pipelineOracleW (initState alertPayloadW true) = .ok stateSuccessW
    ∧ analyze_incident_sync agentNoLLM pipelineOracleW (some alertPayloadW) true =
      { alert_id := some (stateSuccessW.alert.bind (fun b => b.id)),
        type := some (stateSuccessW.alert.bind (fun b => b.type)),
        severity := some (stateSuccessW.alert.bind (fun b => b.severity)),
        resource := some (stateSuccessW.alert.bind (fun b => b.resource)),
        message := some (stateSuccessW.alert.bind (fun b => b.message)),
        anomaly := some (stateSuccessW.logs.bind (fun l => l.anomaly_description)),
        root_cause_field := some stateSuccessW.root_cause,
        recommendations_field := some (stateSuccessW.recommendations.getD []) }
    ∧ (analyze_incident_sync agentNoLLM pipelineOracleW (some alertPayloadW) true).pod_details
      = none := by
  have h : runStages agentNoLLM pipelineOracleW (initState alertPayloadW true)
      = .ok stateSuccessW := rfl
  have h2 := sync_success_flat_summary agentNoLLM pipelineOracleW alertPayloadW true
    stateSuccessW h
  exact ⟨h, h2.1, h2.2.1⟩

/-! C6: fallback diagnosis content and the recommendation cap. -/

/-- C6. With no LLM backend and recommendations requested, every run
returns the fixed fallback root cause (the fixed sentence, with evidence
exactly the alert type, the error count from the log-analysis stage and
the pod status from the enrich stage) and exactly the fixed three-item
recommendation list; moreover, with any backend, the returned
recommendation list never has more than three items, and it is empty when
recommendations were not requested. -/
theorem fallback_diagnosis_and_recommendation_cap :
    (∀ (o : PipelineOracle) (a : AlertPayload),
      (analyze_incident_sync agentNoLLM o (some a) true).root_cause_field =
        some (some
          { summary := FALLBACK_SUMMARY,
            evidence := fallbackEvidence a
              (some (get_cluster_logs o.logsOracle o.logsNow (a.resource.getD "all") 120 "all"))
              (some (get_pod_details (a.resource.getD "unknown") o.podDraw)) })
      ∧ (analyze_incident_sync agentNoLLM o (some a) true).recommendations_field =
          some FALLBACK_RECOMMENDATIONS)
    ∧ (∀ (agent : IncidentResponseAgent) (o : PipelineOracle)
        (al : Option AlertPayload) (inc : Bool),
        ((analyze_incident_sync agent o al inc).recommendations_field.getD []).length ≤ 3)
    ∧ (∀ (agent : IncidentResponseAgent) (o : PipelineOracle) (al : Option AlertPayload),
        (analyze_incident_sync agent o al false).recommendations_field.getD [] = []) := by
  refine ⟨?_, ?_, ?_⟩
  · intro o a
    exact ⟨rfl, rfl⟩
  · intro agent o al inc
    cases al with
    | none => simp [analyze_incident_sync]
    | some a =>
      unfold analyze_incident_sync
      dsimp only
      cases hr : runStages agent o (initState a inc) with
      | ok s =>
        dsimp only
        simpa using (runStages_rec_bounds agent o a inc).1 s hr
      | error p =>
        obtain ⟨e, st⟩ := p
        dsimp only
        rw [(runStages_rec_bounds agent o a inc).2 e st hr]
        simp
  · intro agent o al
    cases al with
    | none => simp [analyze_incident_sync]
    | some a =>
      unfold analyze_incident_sync
      dsimp only
      cases hr : runStages agent o (initState a false) with
      | ok s =>
        dsimp only
        rw [runStages_false_ok agent o a s hr]
        simp
      | error p =>
        obtain ⟨e, st⟩ := p
        dsimp only
        rw [(runStages_rec_bounds agent o a false).2 e st hr]
        simp

/-! C8: behaviour on an absent or malformed alert. -/

/-- C8 counterexample: a malformed-but-truthy alert payload (a dict with
none of the recognized keys) does not fail the run at the enrich stage,
and the later stages do execute: at this concrete input the response has
no `error` field, carries the fallback root cause produced by the
diagnose stage, and carries the fixed recommendations produced by the
recommend stage — contradicting the claim that the run transitions to an
error terminal state with no later stage executing. -/
theorem malformed_alert_completes_run :
    (analyze_incident_sync agentNoLLM pipelineOracleW (some malformedPayloadW) true).error = none
    ∧ (analyze_incident_sync agentNoLLM pipelineOracleW (some malformedPayloadW) true).root_cause_field
      = some (some
          { summary := FALLBACK_SUMMARY,
            evidence := fallbackEvidence malformedPayloadW
              (some (get_cluster_logs logsOracleW 0 "all" 120 "all"))
              (some (get_pod_details "unknown" podDetailsDrawW)) })
    ∧ (analyze_incident_sync agentNoLLM pipelineOracleW (some malformedPayloadW) true).recommendations_field
      = some FALLBACK_RECOMMENDATIONS := by
  exact ⟨rfl, rfl, rfl⟩

/-- C8 (amended). An absent (falsy) alert payload is rejected before any
stage runs, with the flat `Missing alert payload` error response; when the
alert is missing from the pipeline state at the enrich stage, the stage
only records an `error` field and the pipeline does not short-circuit —
the diagnose and recommend stages still execute (producing the
`No alert available to analyze` root cause and, when requested, the
fallback recommendations); and a malformed-but-truthy alert never fails
the run at all: enrich substitutes the `unknown` resource and the run
completes with no error. -/
theorem absent_alert_rejected_no_short_circuit :
    (∀ (agent : IncidentResponseAgent) (o : PipelineOracle) (inc : Bool),
      analyze_incident_sync agent o none inc = { error := some "Missing alert payload" })
    ∧ (∀ (o : PipelineOracle) (s : IncidentState), s.alert = none →
        _enrich_alert o s = { s with error := some "Alert is missing from state" })
    ∧ (∀ (o : PipelineOracle) (inc : Bool),
        runStages agentNoLLM o
          { alert := none, include_recommendations := inc, pod_details := none,
            logs := none, root_cause := none, recommendations := none, error := none }
          = .ok { alert := none, include_recommendations := inc, pod_details := none,
                  logs := none,
                  root_cause := some
                    { summary := "No alert available to analyze", evidence := [] },
                  recommendations := some (if inc then FALLBACK_RECOMMENDATIONS else []),
                  error := some "Alert is missing from state" })
    ∧ (∀ (o : PipelineOracle) (a : AlertPayload),
        (analyze_incident_sync agentNoLLM o (some a) true).error = none
        ∧ (analyze_incident_sync agentNoLLM o (some a) true).pod_details = none
        ∧ (analyze_incident_sync agentNoLLM o (some a) true).root_cause_field =
            some (some
              { summary := FALLBACK_SUMMARY,
                evidence := fallbackEvidence a
                  (some (get_cluster_logs o.logsOracle o.logsNow (a.resource.getD "all") 120 "all"))
                  (some (get_pod_details (a.resource.getD "unknown") o.podDraw)) })) := by
  refine ⟨?_, ?_, ?_, ?_⟩
  · intro agent o inc
    rfl
  · intro o s hs
    unfold _enrich_alert
    rw [hs]
  · intro o inc
    cases inc <;> rfl
  · intro o a
    exact ⟨rfl, rfl, rfl⟩

/-- C8 witness: the amended theorem applied at concrete inputs — the falsy
payload is rejected with no stage run, and the enrich stage on a state
with the alert missing records the error field. -/
theorem absent_alert_rejected_no_short_circuit_witness :
    analyze_incident_sync agentNoLLM pipelineOracleW none true
      = { error := some "Missing alert payload" }
    ∧ ({ alert := none, include_recommendations := true, pod_details := none,
         logs := none, root_cause := none, recommendations := none,
         error := none : IncidentState }.alert = none)
    ∧ _enrich_alert pipelineOracleW
        { alert := none, include_recommendations := true, pod_details := none,
          logs := none, root_cause := none, recommendations := none, error := none }
      = { alert := none, include_recommendations := true, pod_details := none,
          logs := none, root_cause := none, recommendations := none,
          error := some "Alert is missing from state" } := by
  refine ⟨absent_alert_rejected_no_short_circuit.1 agentNoLLM pipelineOracleW true, rfl, ?_⟩
  exact absent_alert_rejected_no_short_circuit.2.1 pipelineOracleW _ rfl

/-! C5: metrics-history bounds. -/

/-- The append-and-trim step keeps a list at no more than 100 entries. -/
theorem trim100_length_le {α : Type} (l : List α) (e : α) (h : l.length ≤ 100) :
    (if (l ++ [e]).length > 100 then (l ++ [e]).drop ((l ++ [e]).length - 100)
     else (l ++ [e])).length ≤ 100 := by
  by_cases hgt : (l ++ [e]).length > 100
  · rw [if_pos hgt, List.length_drop]
    omega
  · rw [if_neg hgt]
    omega

/-- Each tool dispatch keeps the k8s and api history categories at no more
than 100 entries. -/
theorem call_tool_hist_bounds (st : ServerState) (c : ToolCall)
    (h : st.history.k8s.length ≤ 100 ∧ st.history.api.length ≤ 100) :
    (call_tool st c).history.k8s.length ≤ 100
    ∧ (call_tool st c).history.api.length ≤ 100 := by
  cases c with
  | getK8sClusterStatus ns o =>
    exact ⟨trim100_length_le _ _ h.1, h.2⟩
  | getApiGatewayMetrics tw o =>
    exact ⟨h.1, trim100_length_le _ _ h.2⟩
  | getPodLogs _ _ _ _ _ => exact h
  | getActiveAlerts sev now => exact h
  | analyzeIncident _ _ now => exact h
  | executeRunbook _ => exact h
  | getPerformanceBottlenecks _ => exact h
  | unknownTool _ => exact h

/-- Each tool dispatch grows the alert-count history by exactly one entry
for a `get_active_alerts` call and leaves it unchanged otherwise. -/
theorem call_tool_alert_hist_len (st : ServerState) (c : ToolCall) :
    (call_tool st c).history.alerts.length =
      st.history.alerts.length + (if c.isGetActiveAlerts then 1 else 0) := by
  cases c <;> simp [call_tool, ToolCall.isGetActiveAlerts]

/-- History bounds along a whole fold of tool calls. -/
theorem foldl_hist_bounds (calls : List ToolCall) (st : ServerState)
    (h : st.history.k8s.length ≤ 100 ∧ st.history.api.length ≤ 100) :
    (calls.foldl call_tool st).history.k8s.length ≤ 100
    ∧ (calls.foldl call_tool st).history.api.length ≤ 100
    ∧ (calls.foldl call_tool st).history.alerts.length
      = st.history.alerts.length + (calls.filter ToolCall.isGetActiveAlerts).length := by
  induction calls generalizing st with
  | nil => exact ⟨h.1, h.2, by simp⟩
  | cons c t ih =>
    have hrest := ih (call_tool st c) (call_tool_hist_bounds st c h)
    refine ⟨hrest.1, hrest.2.1, ?_⟩
    rw [List.foldl_cons, hrest.2.2, call_tool_alert_hist_len st c]
    cases hc : c.isGetActiveAlerts <;> simp [List.filter_cons, hc] <;> omega

/-- C5 (amended). Along every sequence of tool calls, the k8s and api
history categories hold at most 100 entries (append followed by a trim to
the most recent 100), but the alert-count category is never trimmed: it
holds exactly one entry per `get_active_alerts` call made, and so grows
without bound. -/
theorem metrics_history_trim_behaviour (calls : List ToolCall) :
    (runServer calls).history.k8s.length ≤ 100
    ∧ (runServer calls).history.api.length ≤ 100
    ∧ (runServer calls).history.alerts.length
      = (calls.filter ToolCall.isGetActiveAlerts).length := by
  have h := foldl_hist_bounds calls initServerState (by exact ⟨by simp [initServerState], by simp [initServerState]⟩)
  exact ⟨h.1, h.2.1, by simpa [initServerState] using h.2.2⟩

/-- C5 counterexample: after 101 `get_active_alerts` tool calls the
alert-count history category holds 101 entries — the claimed trim to 100
does not happen for that category. -/
theorem alert_count_history_untrimmed :
    (runServer (List.replicate 101 (ToolCall.getActiveAlerts "all" 0))).history.alerts.length = 101
    ∧ ¬ ((runServer (List.replicate 101 (ToolCall.getActiveAlerts "all" 0))).history.alerts.length
        ≤ 100) := by
  have h := foldl_hist_bounds (List.replicate 101 (ToolCall.getActiveAlerts "all" 0))
    initServerState (by exact ⟨by simp [initServerState], by simp [initServerState]⟩)
  have hf : ((List.replicate 101 (ToolCall.getActiveAlerts "all" 0)).filter
      ToolCall.isGetActiveAlerts).length = 101 := by
    rw [List.filter_replicate]
    simp [ToolCall.isGetActiveAlerts]
  have h1 : (runServer (List.replicate 101 (ToolCall.getActiveAlerts "all" 0))).history.alerts.length
      = 101 := by
    unfold runServer
    rw [h.2.2, hf]
    simp [initServerState]
  exact ⟨h1, by rw [h1]; omega⟩

/-! C10: memory range and the unreachable memory leg of the alert rule. -/

/-- Rounding to two decimals keeps a value inside integer bounds that
contain it. -/
theorem pyRound2_bounds (a b : ℤ) (q : ℚ) (h1 : (a:ℚ) ≤ q) (h2 : q ≤ (b:ℚ)) :
    (a:ℚ) ≤ pyRound q 2 ∧ pyRound q 2 ≤ (b:ℚ) := by
  unfold pyRound
  dsimp only
  have hpow : ((10:ℚ) ^ (2:ℕ)) = 100 := by norm_num
  rw [hpow]
  have hs1 : ((100 * a : ℤ) : ℚ) ≤ q * 100 := by push_cast; linarith
  have hs2 : q * 100 ≤ ((100 * b : ℤ) : ℚ) := by push_cast; linarith
  have hf1 : (100 * a : ℤ) ≤ ⌊q * 100⌋ := Int.le_floor.mpr hs1
  have hf2 : ⌊q * 100⌋ ≤ 100 * b := by
    have := Int.floor_le_floor hs2
    rwa [Int.floor_intCast] at this
  have hfloor : ((⌊q * 100⌋ : ℤ) : ℚ) ≤ q * 100 := Int.floor_le _
  have key : ∀ n : ℤ, 100 * a ≤ n → n ≤ 100 * b →
      ((a:ℚ) ≤ (n:ℚ) / 100 ∧ (n:ℚ) / 100 ≤ (b:ℚ)) := by
    intro n hn1 hn2
    have c1 : ((100 * a : ℤ) : ℚ) ≤ (n:ℚ) := by exact_mod_cast hn1
    have c2 : ((n:ℤ) : ℚ) ≤ ((100 * b : ℤ) : ℚ) := by exact_mod_cast hn2
    push_cast at c1 c2
    constructor <;> [linarith; linarith]
  split_ifs with hr1 hr2 hev
  · -- round up: the fractional part exceeds one half
    refine key _ (by omega) ?_
    have : ((⌊q * 100⌋ : ℤ) : ℚ) < ((100 * b : ℤ) : ℚ) := by
      push_cast
      push_cast at hs2
      linarith
    have hlt : ⌊q * 100⌋ < 100 * b := by exact_mod_cast this
    omega
  · exact key _ hf1 hf2
  · exact key _ hf1 hf2
  · -- tie broken upward (odd floor)
    refine key _ (by omega) ?_
    have htie : q * 100 - (⌊q * 100⌋ : ℚ) = 1/2 := by linarith
    have : ((⌊q * 100⌋ : ℤ) : ℚ) < ((100 * b : ℤ) : ℚ) := by
      push_cast
      push_cast at hs2
      linarith
    have hlt : ⌊q * 100⌋ < 100 * b := by exact_mod_cast this
    omega

/-- Membership after an insert-if-absent step: the element was already
stored or is the inserted alert. -/
theorem recordAlert_mem (store : List Alert) (b a : Alert)
    (h : a ∈ recordAlert store b) : a ∈ store ∨ a = b := by
  unfold recordAlert at h
  cases hf : store.find? (fun c => c.resource == b.resource) with
  | some c =>
    rw [hf] at h
    exact Or.inl h
  | none =>
    rw [hf] at h
    rcases List.mem_append.mp h with h1 | h2
    · exact Or.inl h1
    · exact Or.inr (by simpa using h2)

/-- Insert-if-absent never removes a stored alert. -/
theorem recordAlert_mem_mono (store : List Alert) (b a : Alert)
    (h : a ∈ store) : a ∈ recordAlert store b := by
  unfold recordAlert
  cases hf : store.find? (fun c => c.resource == b.resource) with
  | some c => exact h
  | none => exact List.mem_append_left _ h

/-- Alerts present after one k8s pod step: either previously stored, or
the alert of this pod together with the rule condition that fired it. -/
theorem k8sPodStep_alerts_cases (ns : String) (now : ℚ) (acc : K8sAcc) (idx : ℕ)
    (pod_name : String) (d : PodDraw) (a : Alert)
    (ha : a ∈ (k8sPodStep ns now acc idx pod_name d).alerts) :
    a ∈ acc.alerts
    ∨ (a = k8sPodAlert now pod_name d
       ∧ (_generate_pod_status d.statusRoll = "CrashLoopBackOff"
          ∨ _generate_cpu_usage d.cpuBase d.spikeGate d.spikeDraw > 90
          ∨ _generate_memory_usage d.memDraw > 90)) := by
  unfold k8sPodStep at ha
  dsimp only at ha
  by_cases hc : (_generate_pod_status d.statusRoll = "CrashLoopBackOff"
      ∨ _generate_cpu_usage d.cpuBase d.spikeGate d.spikeDraw > 90
      ∨ _generate_memory_usage d.memDraw > 90)
  · rw [if_pos hc] at ha
    rcases recordAlert_mem _ _ _ ha with h1 | h2
    · exact Or.inl h1
    · exact Or.inr ⟨h2, hc⟩
  · rw [if_neg hc] at ha
    exact Or.inl ha

/-- One k8s pod step never removes a stored alert. -/
theorem k8sPodStep_alerts_mono (ns : String) (now : ℚ) (acc : K8sAcc) (idx : ℕ)
    (pod_name : String) (d : PodDraw) (a : Alert) (h : a ∈ acc.alerts) :
    a ∈ (k8sPodStep ns now acc idx pod_name d).alerts := by
  unfold k8sPodStep
  dsimp only
  split
  · exact recordAlert_mem_mono _ _ _ h
  · exact h

/-- The k8s loop fold never removes a stored alert. -/
theorem k8sFold_alerts_mono (ns : String) (now : ℚ) (dr : ℕ → PodDraw)
    (l : List (ℕ × String)) (acc : K8sAcc) (a : Alert) (h : a ∈ acc.alerts) :
    a ∈ ((l.foldl (fun acc p => k8sPodStep ns now acc p.1 p.2 (dr p.1)) acc).alerts) := by
  induction l generalizing acc with
  | nil => exact h
  | cons p t ih => exact ih _ (k8sPodStep_alerts_mono _ _ _ _ _ _ _ h)

/-- Alerts present after the k8s loop fold: either previously stored, or
raised by one of the folded pods with its rule condition. -/
theorem k8sFold_alerts_mem (ns : String) (now : ℚ) (dr : ℕ → PodDraw)
    (l : List (ℕ × String)) (acc : K8sAcc) (a : Alert)
    (ha : a ∈ ((l.foldl (fun acc p => k8sPodStep ns now acc p.1 p.2 (dr p.1)) acc).alerts)) :
    a ∈ acc.alerts
    ∨ ∃ p ∈ l, a = k8sPodAlert now p.2 (dr p.1)
        ∧ (_generate_pod_status (dr p.1).statusRoll = "CrashLoopBackOff"
           ∨ _generate_cpu_usage (dr p.1).cpuBase (dr p.1).spikeGate (dr p.1).spikeDraw > 90
           ∨ _generate_memory_usage (dr p.1).memDraw > 90) := by
  induction l generalizing acc with
  | nil => exact Or.inl ha
  | cons p t ih =>
    rw [List.foldl_cons] at ha
    rcases ih _ ha with h1 | h2
    · rcases k8sPodStep_alerts_cases ns now acc p.1 p.2 (dr p.1) a h1 with h3 | h4
      · exact Or.inl h3
      · exact Or.inr ⟨p, List.mem_cons_self _ _, h4⟩
    · obtain ⟨q, hq, hh⟩ := h2
      exact Or.inr ⟨q, List.mem_cons_of_mem _ hq, hh⟩

/-- Pods present after the k8s loop fold: either previously accumulated,
or the pod record of one of the folded pods. -/
theorem k8sFold_pods_mem (ns : String) (now : ℚ) (dr : ℕ → PodDraw)
    (l : List (ℕ × String)) (acc : K8sAcc) (pod : PodInfo)
    (hp : pod ∈ ((l.foldl (fun acc p => k8sPodStep ns now acc p.1 p.2 (dr p.1)) acc).pods)) :
    pod ∈ acc.pods ∨ ∃ p ∈ l, pod = k8sPodRecord ns p.1 p.2 (dr p.1) := by
  induction l generalizing acc with
  | nil => exact Or.inl hp
  | cons p t ih =>
    rw [List.foldl_cons] at hp
    rcases ih _ hp with h1 | h2
    · have h1' : pod ∈ (k8sPodStep ns now acc p.1 p.2 (dr p.1)).pods := h1
      unfold k8sPodStep at h1'
      dsimp only at h1'
      rcases List.mem_append.mp h1' with h3 | h4
      · exact Or.inl h3
      · exact Or.inr ⟨p, List.mem_cons_self _ _, by simpa using h4⟩
    · obtain ⟨q, hq, hh⟩ := h2
      exact Or.inr ⟨q, List.mem_cons_of_mem _ hq, hh⟩

/-- An alert of type `HighResourceUsage` can only be built for a pod whose
status is not crash-looping. -/
theorem k8sPodAlert_hru_status (now : ℚ) (pod_name : String) (d : PodDraw)
    (h : (k8sPodAlert now pod_name d).type = "HighResourceUsage") :
    _generate_pod_status d.statusRoll ≠ "CrashLoopBackOff" := by
  intro hclb
  unfold k8sPodAlert at h
  dsimp only at h
  rw [if_pos hclb] at h
  exact absurd h (by decide)

/-- The store component returned by `get_k8s_metrics` is the alert list of
the folded per-pod loop. -/
theorem get_k8s_metrics_snd (ns : String) (o : K8sOracle) (store : List Alert) :
    (get_k8s_metrics ns o store).2 = ((POD_NAMES.enum.foldl
      (fun acc p => k8sPodStep ns o.now acc p.1 p.2 (o.draws p.1))
      { alerts := store, pods := [], total_cpu := 0, total_memory := 0 }).alerts) := rfl

/-- When the alert rule fires, the k8s pod step inserts via the
insert-if-absent pattern. -/
theorem k8sPodStep_alerts_insert (ns : String) (now : ℚ) (acc : K8sAcc) (idx : ℕ)
    (pod_name : String) (d : PodDraw)
    (hc : _generate_pod_status d.statusRoll = "CrashLoopBackOff"
      ∨ _generate_cpu_usage d.cpuBase d.spikeGate d.spikeDraw > 90
      ∨ _generate_memory_usage d.memDraw > 90) :
    (k8sPodStep ns now acc idx pod_name d).alerts
      = recordAlert acc.alerts (k8sPodAlert now pod_name d) := by
  unfold k8sPodStep
  dsimp only
  rw [if_pos hc]

/-- C10. For every valid randomness draw, the generated memory usage (and
its rounded pod field) lies in `[30, 85]`, so the memory leg of the alert
rule (`memory > 90`) can never fire: every `HighResourceUsage` alert that
`get_k8s_metrics` ever inserts comes from a pod whose generated cpu usage
exceeds 90. -/
theorem memory_range_high_cpu_only :
    (∀ m : ℚ, 30 ≤ m → m ≤ 85 →
      (30 ≤ pyRound (_generate_memory_usage m) 2 ∧ pyRound (_generate_memory_usage m) 2 ≤ 85)
      ∧ ¬ (_generate_memory_usage m > 90))
    ∧ (∀ (ns : String) (o : K8sOracle) (store : List Alert), o.Valid →
        (∀ pod ∈ (get_k8s_metrics ns o store).1.pods,
          30 ≤ pod.memory_usage_percent ∧ pod.memory_usage_percent ≤ 85)
        ∧ (∀ a ∈ (get_k8s_metrics ns o store).2, a ∉ store →
            a.type = "HighResourceUsage" →
            ∃ i < POD_NAMES.length,
              _generate_cpu_usage (o.draws i).cpuBase (o.draws i).spikeGate
                (o.draws i).spikeDraw > 90
              ∧ ¬ (_generate_memory_usage (o.draws i).memDraw > 90))) := by
  have hmem : ∀ m : ℚ, 30 ≤ m → m ≤ 85 →
      (30 ≤ pyRound m 2 ∧ pyRound m 2 ≤ 85) := by
    intro m hm1 hm2
    have h := pyRound2_bounds 30 85 m (by exact_mod_cast hm1) (by exact_mod_cast hm2)
    constructor
    · exact_mod_cast h.1
    · exact_mod_cast h.2
  refine ⟨?_, ?_⟩
  · intro m h1 h2
    refine ⟨hmem m h1 h2, ?_⟩
    unfold _generate_memory_usage
    linarith
  · intro ns o store hv
    constructor
    · intro pod hp
      have hp' : pod ∈ ((POD_NAMES.enum.foldl
          (fun acc p => k8sPodStep ns o.now acc p.1 p.2 (o.draws p.1))
          { alerts := store, pods := [], total_cpu := 0, total_memory := 0 }).pods) := hp
      rcases k8sFold_pods_mem ns o.now o.draws POD_NAMES.enum _ pod hp' with h1 | h2
      · simp at h1
      · obtain ⟨p, _, hpe⟩ := h2
        rw [hpe]
        unfold k8sPodRecord
        dsimp only
        obtain ⟨_, _, _, _, hm1, hm2⟩ := hv p.1
        exact hmem _ hm1 hm2
    · intro a ha hnotin htype
      have ha' : a ∈ ((POD_NAMES.enum.foldl
          (fun acc p => k8sPodStep ns o.now acc p.1 p.2 (o.draws p.1))
          { alerts := store, pods := [], total_cpu := 0, total_memory := 0 }).alerts) := ha
      rcases k8sFold_alerts_mem ns o.now o.draws POD_NAMES.enum _ a ha' with h1 | h2
      · exact absurd h1 hnotin
      · obtain ⟨p, hpmem, hpe, hcond⟩ := h2
        have hi : p.1 < POD_NAMES.length := by
          have hg := List.mem_enum_iff_get?.mp hpmem
          exact (List.get?_eq_some.mp hg).1
        have hstat : _generate_pod_status (o.draws p.1).statusRoll ≠ "CrashLoopBackOff" := by
          apply k8sPodAlert_hru_status o.now p.2 (o.draws p.1)
          rw [← hpe]
          exact htype
        have hmemle : ¬ (_generate_memory_usage (o.draws p.1).memDraw > 90) := by
          obtain ⟨_, _, _, _, hm1, hm2⟩ := hv p.1
          unfold _generate_memory_usage
          linarith
        rcases hcond with hclb | hcpu | hmem90
        · exact absurd hclb hstat
        · exact ⟨p.1, hi, hcpu, hmemle⟩
        · exact absurd hmem90 hmemle

/-- C10 witness: the theorem applied to concrete draws — a memory draw of
50 stays within bounds, and a concrete saturating-cpu oracle makes the
generator insert a `HighResourceUsage` alert whose cause is cpu above 90. -/
theorem memory_range_high_cpu_only_witness :
    ((30:ℚ) ≤ 50 ∧ (50:ℚ) ≤ 85)
    ∧ (30 ≤ pyRound (_generate_memory_usage 50) 2 ∧ pyRound (_generate_memory_usage 50) 2 ≤ 85)
    ∧ K8sOracle.Valid k8sOracleW
    ∧ k8sPodAlert 0 "api-gateway-7d9f8b-xyz12" podDrawHighCpuW
        ∈ (get_k8s_metrics "all" k8sOracleW []).2
    ∧ (k8sPodAlert 0 "api-gateway-7d9f8b-xyz12" podDrawHighCpuW).type = "HighResourceUsage"
    ∧ (∃ i < POD_NAMES.length,
        _generate_cpu_usage (k8sOracleW.draws i).cpuBase (k8sOracleW.draws i).spikeGate
          (k8sOracleW.draws i).spikeDraw > 90
        ∧ ¬ (_generate_memory_usage (k8sOracleW.draws i).memDraw > 90)) := by
  have hval : K8sOracle.Valid k8sOracleW := by
    intro i
    show PodDraw.Valid podDrawHighCpuW
    unfold PodDraw.Valid
    decide
  have hcond : (_generate_pod_status podDrawHighCpuW.statusRoll = "CrashLoopBackOff"
      ∨ _generate_cpu_usage podDrawHighCpuW.cpuBase podDrawHighCpuW.spikeGate
          podDrawHighCpuW.spikeDraw > 90
      ∨ _generate_memory_usage podDrawHighCpuW.memDraw > 90) := by
    right
    left
    show (90:ℚ) < _generate_cpu_usage 60 true 40
    unfold _generate_cpu_usage
    norm_num
  have hmem0 : k8sPodAlert 0 "api-gateway-7d9f8b-xyz12" podDrawHighCpuW ∈
      (k8sPodStep "all" 0 { alerts := [], pods := [], total_cpu := 0, total_memory := 0 }
        0 "api-gateway-7d9f8b-xyz12" podDrawHighCpuW).alerts := by
    rw [k8sPodStep_alerts_insert "all" 0
      { alerts := [], pods := [], total_cpu := 0, total_memory := 0 }
      0 "api-gateway-7d9f8b-xyz12" podDrawHighCpuW hcond]
    unfold recordAlert
    simp
  have hmem : k8sPodAlert 0 "api-gateway-7d9f8b-xyz12" podDrawHighCpuW
      ∈ (get_k8s_metrics "all" k8sOracleW []).2 := by
    rw [get_k8s_metrics_snd "all" k8sOracleW []]
    have henum : POD_NAMES.enum = (0, "api-gateway-7d9f8b-xyz12") ::
        [(1, "auth-service-5c8a4f-abc34"), (2, "payment-service-9b2e1d-def56"),
         (3, "notification-service-4a7c3e-ghi78"), (4, "user-service-6f1b9a-jkl90"),
         (5, "inventory-service-3d8e2c-mno12"), (6, "frontend-app-8c4f7b-pqr34")] := by decide
    rw [henum, List.foldl_cons]
    exact k8sFold_alerts_mono "all" k8sOracleW.now k8sOracleW.draws _ _ _ hmem0
  have htype : (k8sPodAlert 0 "api-gateway-7d9f8b-xyz12" podDrawHighCpuW).type
      = "HighResourceUsage" := rfl
  refine ⟨⟨by decide, by decide⟩, ?_, hval, hmem, htype, ?_⟩
  · exact (memory_range_high_cpu_only.1 50 (by decide) (by decide)).1
  · exact (memory_range_high_cpu_only.2 "all" k8sOracleW [] hval).2 _ hmem
      (List.not_mem_nil _) htype
